import Mathlib

/-!
# TI LM3633 LED driver (drivers/leds/leds-lm3633.c)

A shallow embedding of the driver: the bank allocator
(`lm3633_led_config_bank`), the bank enable controller
(`lm3633_led_enable_bank`), the pattern attributes
(`pattern_times`, `pattern_levels`, `run_pattern`), the deferred brightness
writer (`lm3633_led_work`) and the per-LED part of probe.

Machine integers are natural numbers with explicit truncation (`% 256` for
`u8`, `% 2 ^ 32` for `unsigned int`).  Return codes are integers, `0` meaning
success.  The environment of the driver (register transport, effect
subsystem, mutex) is explicit state carried inside the LED structure, the way
the C structure reaches it through `lmu_led->chip->lmu`.
-/

namespace LM3633

/-! ## Constants and types of the driver -/

/-- LM3633_LED_MAX_BRIGHTNESS. -/
def LM3633_LED_MAX_BRIGHTNESS : Nat := 255

/-- LM3633_DEFAULT_LED_NAME. -/
def LM3633_DEFAULT_LED_NAME : String := "indicator"

/-- LM3633_MAX_LEDS, the last enumerator of `enum lm3633_led_bank_id`. -/
def LM3633_MAX_LEDS : Nat := 6

/-- The errno value EINVAL. -/
def EINVAL : Int := 22

/-- BIT(n) of the kernel. -/
def BIT (n : Nat) : Nat := 1 <<< n

/-- The enumerators LM3633_LED_BANK_C .. LM3633_LED_BANK_H have the values
0 .. 5; `bank_id` is kept as the integer the C code computes with. -/
def LM3633_LED_BANK_C : Nat := 0
def LM3633_LED_BANK_D : Nat := 1
def LM3633_LED_BANK_E : Nat := 2
def LM3633_LED_BANK_F : Nat := 3
def LM3633_LED_BANK_G : Nat := 4
def LM3633_LED_BANK_H : Nat := 5

/-- Register addresses and bit constants that the driver takes from
linux/mfd/ti-lmu-register.h.  The header is not part of the source file, so
the constants are parameters of every operation that uses them. -/
structure lmu_register where
  LM3633_REG_BANK_SEL : Nat
  LM3633_REG_ENABLE : Nat
  LM3633_LED_BANK_OFFSET : Nat
  LM3633_REG_PATTERN : Nat
  LM3633_PATTERN_EN : Nat
  LM3633_REG_IMAX_LVLED_BASE : Nat
  LM3633_REG_BRT_LVLED_BASE : Nat

/-- The request kinds of `enum lmu_effect_request_id` used by the driver. -/
inductive lmu_effect_request_id
  | LED_EFFECT_DELAY
  | LED_EFFECT_HIGHTIME
  | LED_EFFECT_LOWTIME
  | LED_EFFECT_PTN0_RAMPUP
  | LED_EFFECT_PTN0_RAMPDN
  | LED_EFFECT_PTN1_RAMPUP
  | LED_EFFECT_PTN1_RAMPDN
  | LED_EFFECT_LOWBRT
  | LED_EFFECT_HIGHBRT
  deriving DecidableEq, Repr

open lmu_effect_request_id

/-- One call into the register transport, as it was issued. -/
inductive io_access
  | update_bits (reg mask val : Nat)
  | write_byte (reg data : Nat)
  deriving DecidableEq, Repr

/-- The MFD core handle `struct ti_lmu` as the driver sees it: the 8-bit
register file behind the transport, the outcome the transport gives to its
n-th call (`0` for success), the calls issued so far, and the same for the
effect subsystem. -/
structure ti_lmu where
  regs : Nat → Nat
  io_ret : Nat → Int
  io_log : List io_access
  effect_ret : Nat → Int
  effect_log : List lmu_effect_request_id

/-- The chip structure `struct ti_lmu_led_chip`: `lock` tells whether the
mutex is held and `lock_count` counts the `mutex_lock` calls made so far. -/
structure ti_lmu_led_chip where
  lmu : ti_lmu
  lock : Bool
  lock_count : Nat
  num_leds : Nat

/-- The configuration descriptor `struct ti_lmu_led_platform_data`. -/
structure ti_lmu_led_platform_data where
  name : Option String
  led_string : Nat
  imax : Nat

structure lm3633_pattern_time where
  delay : Nat
  rise : Nat
  high : Nat
  fall : Nat
  low : Nat
  deriving DecidableEq, Repr

structure lm3633_pattern_level where
  low : Nat
  high : Nat
  deriving DecidableEq, Repr

/-- The part of `struct led_classdev` that the driver fills in. -/
structure led_classdev where
  name : String
  max_brightness : Nat
  registered : Bool
  has_attr_group : Bool

/-- The LED string structure `struct ti_lmu_led`.  `work_pending` stands for
the state of `work` after `schedule_work`. -/
structure ti_lmu_led where
  bank_id : Nat
  cdev : led_classdev
  chip : ti_lmu_led_chip
  led_pdata : ti_lmu_led_platform_data
  work_pending : Bool
  brightness : Nat
  time : lm3633_pattern_time
  level : lm3633_pattern_level

/-! ## The collaborators -/

/-- Modelled from the spec: `ti_lmu_update_bits` is declared in
linux/mfd/ti-lmu.h and defined outside the source file.  The spec calls it a
masked read-modify-write, `read_modify_write(addr, mask, value)`, which may
fail: on success the bits under `mask` of the 8-bit register take the bits of
`val` and the other bits stay; on failure the register file is left alone.
The outcome of the call is the next answer of the transport. -/
def ti_lmu_update_bits (lmu : ti_lmu) (reg mask val : Nat) : Int × ti_lmu :=
  let ret := lmu.io_ret lmu.io_log.length
  let m := mask % 256
  let v := val % 256
  let log := lmu.io_log ++ [io_access.update_bits reg m v]
  if ret ≠ 0 then
    (ret, { lmu with io_log := log })
  else
    (0, { lmu with
            io_log := log
            regs := Function.update lmu.regs reg
                      (((lmu.regs reg) &&& (255 ^^^ m)) ||| (v &&& m)) })

/-- Modelled from the spec: `ti_lmu_write_byte` is declared in
linux/mfd/ti-lmu.h and defined outside the source file.  The spec calls it
`write_byte(addr, value)`, which may fail: on success the register holds the
byte, on failure the register file is left alone. -/
def ti_lmu_write_byte (lmu : ti_lmu) (reg data : Nat) : Int × ti_lmu :=
  let ret := lmu.io_ret lmu.io_log.length
  let d := data % 256
  let log := lmu.io_log ++ [io_access.write_byte reg d]
  if ret ≠ 0 then
    (ret, { lmu with io_log := log })
  else
    (0, { lmu with io_log := log, regs := Function.update lmu.regs reg d })

/-- Modelled from the spec: `ti_lmu_effect_request` belongs to the effect
subsystem (linux/mfd/ti-lmu-effect.h), outside the source file.  The spec
gives its contract, `request(effect_name, callback, request_id, user_data)`:
the request is either enqueued (`0`) or refused with an error.  The callback
runs later and is not part of the call. -/
def ti_lmu_effect_request (lmu : ti_lmu) (id : lmu_effect_request_id) : Int × ti_lmu :=
  let ret := lmu.effect_ret lmu.effect_log.length
  (ret, { lmu with effect_log := lmu.effect_log ++ [id] })

/-- The call mutex_lock(&chip->lock), seen from the caller: when the call
returns the caller holds the mutex.  Waiting for another holder is not
modelled. -/
def mutex_lock (chip : ti_lmu_led_chip) : ti_lmu_led_chip :=
  { chip with lock := true, lock_count := chip.lock_count + 1 }

/-- The call mutex_unlock(&chip->lock). -/
def mutex_unlock (chip : ti_lmu_led_chip) : ti_lmu_led_chip :=
  { chip with lock := false }

/-! ## Bank allocator -/

/-- The table `group_led[]` of lm3633_led_config_bank. -/
def group_led (i : Nat) : Nat :=
  [0, BIT 0, BIT 0, 0, BIT 3, BIT 3].getD i 0

/-- The table `default_id[]` of lm3633_led_config_bank. -/
def default_id (i : Nat) : Nat :=
  [LM3633_LED_BANK_C, LM3633_LED_BANK_C, LM3633_LED_BANK_C,
   LM3633_LED_BANK_F, LM3633_LED_BANK_F, LM3633_LED_BANK_F].getD i 0

/-- The table `separate_id[]` of lm3633_led_config_bank. -/
def separate_id (i : Nat) : Nat :=
  [LM3633_LED_BANK_C, LM3633_LED_BANK_D, LM3633_LED_BANK_E,
   LM3633_LED_BANK_F, LM3633_LED_BANK_G, LM3633_LED_BANK_H].getD i 0

/-- One iteration of the loop of lm3633_led_config_bank, for index `i`.
The result is the return code of the transport (`0` when nothing was
written) and the LED afterwards. -/
def config_bank_iter (R : lmu_register) (i : Nat) (lmu_led : ti_lmu_led) :
    Int × ti_lmu_led :=
  if i = 0 ∨ i = 3 then
    (0, lmu_led)
  else if lmu_led.led_pdata.led_string.testBit i then
    let grouped := lmu_led.led_pdata.led_string &&& group_led i ≠ 0
    let bank := if grouped then default_id i else separate_id i
    let val := if grouped then 0 else BIT i
    let r := ti_lmu_update_bits lmu_led.chip.lmu R.LM3633_REG_BANK_SEL (BIT i) val
    (r.1, { lmu_led with bank_id := bank, chip := { lmu_led.chip with lmu := r.2 } })
  else
    (0, lmu_led)

/-- The loop `for (i = ...; i < LM3633_MAX_LEDS; i++)` over the indices that
are left, stopping at the first transport error. -/
def config_bank_loop (R : lmu_register) : List Nat → ti_lmu_led → Int × ti_lmu_led
  | [], lmu_led => (0, lmu_led)
  | i :: rest, lmu_led =>
    let r := config_bank_iter R i lmu_led
    if r.1 ≠ 0 then r else config_bank_loop R rest r.2

/-- The function lm3633_led_config_bank. -/
def lm3633_led_config_bank (R : lmu_register) (lmu_led : ti_lmu_led) : Int × ti_lmu_led :=
  config_bank_loop R (List.range LM3633_MAX_LEDS) lmu_led

/-- The function lm3633_led_enable_bank.  `mask` is a `u8`. -/
def lm3633_led_enable_bank (R : lmu_register) (lmu_led : ti_lmu_led) (on_ : Bool) :
    Int × ti_lmu_led :=
  let mask := (1 <<< (lmu_led.bank_id + R.LM3633_LED_BANK_OFFSET)) % 256
  let r :=
    if on_ then ti_lmu_update_bits lmu_led.chip.lmu R.LM3633_REG_ENABLE mask mask
    else ti_lmu_update_bits lmu_led.chip.lmu R.LM3633_REG_ENABLE mask 0
  (r.1, { lmu_led with chip := { lmu_led.chip with lmu := r.2 } })

/-- The function lm3633_led_effect_request: the request kind `id` selects the
effect name and is handed on as the request id. -/
def lm3633_led_effect_request (id : lmu_effect_request_id) (lmu_led : ti_lmu_led) :
    Int × ti_lmu_led :=
  let r := ti_lmu_effect_request lmu_led.chip.lmu id
  (r.1, { lmu_led with chip := { lmu_led.chip with lmu := r.2 } })

/-! ## Text input and output of the attributes

Attribute buffers are lists of characters, one per byte, without the
terminating NUL. -/

/-- Modelled from the spec: `isspace` of linux/ctype.h, outside the source
file; the spec speaks of whitespace-separated integers.  The kernel table
counts the ASCII white space characters and the byte 0xa0. -/
def isspace (c : Char) : Bool :=
  decide (c.toNat = 32 ∨ (9 ≤ c.toNat ∧ c.toNat ≤ 13) ∨ c.toNat = 160)

/-- Modelled from the spec: `isdigit` of linux/ctype.h, outside the source
file: the decimal digits. -/
def isdigit (c : Char) : Bool :=
  decide (48 ≤ c.toNat ∧ c.toNat ≤ 57)

/-- Modelled from the spec: `skip_spaces` of the kernel library, outside the
source file: drops leading white space. -/
def skip_spaces : List Char → List Char
  | [] => []
  | c :: cs => if isspace c then skip_spaces cs else c :: cs

/-- Modelled from the spec: the base-10 `simple_strtoul` of the kernel
library, outside the source file: reads the longest run of decimal digits and
returns its value with the rest of the input. -/
def simple_strtoul (acc : Nat) : List Char → Nat × List Char
  | [] => (acc, [])
  | c :: cs =>
    if isdigit c then simple_strtoul (acc * 10 + (c.toNat - 48)) cs else (acc, c :: cs)

/-- Modelled from the spec: `sscanf` of the kernel library, outside the
source file, for the formats "%u %u" and "%u %u %u %u %u" of the driver (`n`
conversions "%u" separated by blanks).  The spec describes the input as
whitespace-separated unsigned integers.  Each conversion skips white space,
needs a decimal digit, reads the digits and stores the value as an
`unsigned int`; the scan stops at the first conversion that fails.  The
result lists the values converted, in order: its length is the return value
of `sscanf`, and its k-th entry is what was stored through the k-th pointer
argument. -/
def sscanf_u : Nat → List Char → List Nat
  | 0, _ => []
  | n + 1, str =>
    match skip_spaces str with
    | [] => []
    | c :: cs =>
      if isdigit c then
        let r := simple_strtoul 0 (c :: cs)
        (r.1 % 2 ^ 32) :: sscanf_u n r.2
      else []

/-- Modelled from the spec: the conversion "%u" of `sprintf`, outside the
source file: the decimal digits of the value. -/
def utoa (n : Nat) : List Char := Nat.toDigits 10 n

/-- Modelled from the spec: `_tolower` of linux/ctype.h. -/
def _tolower (c : Char) : Nat := c.toNat ||| 0x20

/-- Modelled from the spec: the digit value that `_parse_integer` of the
kernel library gives to a character, if any. -/
def digit_value (c : Char) : Option Nat :=
  if 48 ≤ c.toNat ∧ c.toNat ≤ 57 then some (c.toNat - 48)
  else if 97 ≤ _tolower c ∧ _tolower c ≤ 102 then some (_tolower c - 97 + 10)
  else none

/-- Modelled from the spec: `_parse_integer` of the kernel library: reads the
digits below `base`; returns the value, the number of characters read and the
rest of the input. -/
def _parse_integer (base : Nat) (acc rv : Nat) : List Char → Nat × Nat × List Char
  | [] => (acc, rv, [])
  | c :: cs =>
    match digit_value c with
    | none => (acc, rv, c :: cs)
    | some d =>
      if d ≥ base then (acc, rv, c :: cs)
      else _parse_integer base (acc * base + d) (rv + 1) cs

/-- Modelled from the spec: `kstrtoul(buf, 0, &enable)` of the kernel
library, outside the source file.  The spec describes the input of
run-pattern as a boolean-like integer.  The kernel function accepts an
optional plus sign, a number in base 16 ("0x"), 8 (leading "0") or 10 and an
optional final newline, and nothing else; the value has to fit an
`unsigned long` of 64 bits.  `none` stands for a nonzero return code. -/
def kstrtoul (buf : List Char) : Option Nat :=
  let s := match buf with
    | '+' :: t => t
    | t => t
  let bs : Nat × List Char := match s with
    | '0' :: x :: h :: t =>
      if _tolower x = 120 ∧ (digit_value h).isSome then (16, h :: t) else (8, s)
    | '0' :: _ => (8, s)
    | _ => (10, s)
  let r := _parse_integer bs.1 0 0 bs.2
  if r.1 ≥ 2 ^ 64 then none
  else if r.2.1 = 0 then none
  else
    let rest := match r.2.2 with
      | '\n' :: t => t
      | t => t
    if rest = [] then some r.1 else none

/-! ## Pattern attributes -/

/-- The function lm3633_led_show_pattern_times: the text that `sprintf`
leaves in the buffer. -/
def lm3633_led_show_pattern_times (lmu_led : ti_lmu_led) : String :=
  String.mk ("delay: ".toList ++ utoa lmu_led.time.delay
    ++ ", rise: ".toList ++ utoa lmu_led.time.rise
    ++ ", high:".toList ++ utoa lmu_led.time.high
    ++ ", fall:".toList ++ utoa lmu_led.time.fall
    ++ ", low: ".toList ++ utoa lmu_led.time.low ++ "\n".toList)

/-- Leaves the function through the label `skip` or through the regular
exit: unlock and return. -/
def unlock_return (ret : Int) (lmu_led : ti_lmu_led) : Int × ti_lmu_led :=
  (ret, { lmu_led with chip := mutex_unlock lmu_led.chip })

/-- The function lm3633_led_store_pattern_times.  `sscanf` stores through
pointers to the fields of `lmu_led->time`, so the values it converts reach
the fields before the count is checked. -/
def lm3633_led_store_pattern_times (buf : String) (len : Nat) (lmu_led : ti_lmu_led) :
    Int × ti_lmu_led :=
  let vals := sscanf_u 5 buf.toList
  let t := lmu_led.time
  let lmu_led := { lmu_led with
    time := { delay := vals.getD 0 t.delay
              rise := vals.getD 1 t.rise
              high := vals.getD 2 t.high
              fall := vals.getD 3 t.fall
              low := vals.getD 4 t.low } }
  if vals.length ≠ 5 then
    (-EINVAL, lmu_led)
  else
    let lmu_led := { lmu_led with chip := mutex_lock lmu_led.chip }
    let r := lm3633_led_effect_request LED_EFFECT_DELAY lmu_led
    if r.1 ≠ 0 then unlock_return r.1 r.2 else
    let r := lm3633_led_effect_request LED_EFFECT_HIGHTIME r.2
    if r.1 ≠ 0 then unlock_return r.1 r.2 else
    let r := lm3633_led_effect_request LED_EFFECT_LOWTIME r.2
    if r.1 ≠ 0 then unlock_return r.1 r.2 else
    if r.2.bank_id = LM3633_LED_BANK_C ∨ r.2.bank_id = LM3633_LED_BANK_D
        ∨ r.2.bank_id = LM3633_LED_BANK_E then
      let r := lm3633_led_effect_request LED_EFFECT_PTN0_RAMPUP r.2
      if r.1 ≠ 0 then unlock_return r.1 r.2 else
      let r := lm3633_led_effect_request LED_EFFECT_PTN0_RAMPDN r.2
      if r.1 ≠ 0 then unlock_return r.1 r.2 else
      unlock_return len r.2
    else if r.2.bank_id = LM3633_LED_BANK_F ∨ r.2.bank_id = LM3633_LED_BANK_G
        ∨ r.2.bank_id = LM3633_LED_BANK_H then
      let r := lm3633_led_effect_request LED_EFFECT_PTN1_RAMPUP r.2
      if r.1 ≠ 0 then unlock_return r.1 r.2 else
      let r := lm3633_led_effect_request LED_EFFECT_PTN1_RAMPDN r.2
      if r.1 ≠ 0 then unlock_return r.1 r.2 else
      unlock_return len r.2
    else
      unlock_return len r.2

/-- The function lm3633_led_show_pattern_levels: the text that `sprintf`
leaves in the buffer. -/
def lm3633_led_show_pattern_levels (lmu_led : ti_lmu_led) : String :=
  String.mk ("low brightness: ".toList ++ utoa lmu_led.level.low
    ++ ", high brightness: ".toList ++ utoa lmu_led.level.high ++ "\n".toList)

/-- The function lm3633_led_store_pattern_levels.  `sscanf` stores into the
locals `low` and `high`; the fields of `lmu_led->level` are `u8`. -/
def lm3633_led_store_pattern_levels (R : lmu_register) (buf : String) (len : Nat)
    (lmu_led : ti_lmu_led) : Int × ti_lmu_led :=
  let vals := sscanf_u 2 buf.toList
  if vals.length ≠ 2 then
    (-EINVAL, lmu_led)
  else
    let low := min (vals.getD 0 0) LM3633_LED_MAX_BRIGHTNESS
    let high := min (vals.getD 1 0) LM3633_LED_MAX_BRIGHTNESS
    let lmu_led := { lmu_led with level := { low := low % 256, high := high % 256 } }
    let lmu_led := { lmu_led with chip := mutex_lock lmu_led.chip }
    let r := lm3633_led_enable_bank R lmu_led false
    if r.1 ≠ 0 then unlock_return r.1 r.2 else
    let r := lm3633_led_effect_request LED_EFFECT_LOWBRT r.2
    if r.1 ≠ 0 then unlock_return r.1 r.2 else
    let r := lm3633_led_effect_request LED_EFFECT_HIGHBRT r.2
    if r.1 ≠ 0 then unlock_return r.1 r.2 else
    unlock_return len r.2

/-- The function lm3633_led_run_pattern.  `offset` and `mask` are `u8`. -/
def lm3633_led_run_pattern (R : lmu_register) (buf : String) (len : Nat)
    (lmu_led : ti_lmu_led) : Int × ti_lmu_led :=
  let offset := (lmu_led.bank_id + R.LM3633_LED_BANK_OFFSET) % 256
  let mask := (R.LM3633_PATTERN_EN <<< offset) % 256
  match kstrtoul buf.toList with
  | none => (-EINVAL, lmu_led)
  | some enable =>
    let lmu_led := { lmu_led with chip := mutex_lock lmu_led.chip }
    let r :=
      if enable ≠ 0 then ti_lmu_update_bits lmu_led.chip.lmu R.LM3633_REG_PATTERN mask mask
      else ti_lmu_update_bits lmu_led.chip.lmu R.LM3633_REG_PATTERN mask 0
    let lmu_led := { lmu_led with chip := { lmu_led.chip with lmu := r.2 } }
    if r.1 ≠ 0 then unlock_return r.1 lmu_led else
    let lmu_led := if enable ≠ 0 then (lm3633_led_enable_bank R lmu_led true).2 else lmu_led
    unlock_return len lmu_led

/-! ## Brightness -/

/-- The function lm3633_led_set_max_current.  `reg` is a `u8`. -/
def lm3633_led_set_max_current (R : lmu_register) (lmu_led : ti_lmu_led) : Int × ti_lmu_led :=
  let reg := (R.LM3633_REG_IMAX_LVLED_BASE + lmu_led.bank_id) % 256
  let r := ti_lmu_write_byte lmu_led.chip.lmu reg lmu_led.led_pdata.imax
  (r.1, { lmu_led with chip := { lmu_led.chip with lmu := r.2 } })

/-- The function lm3633_led_work, the deferred unit: one run of the work
item.  The return codes of the transport are dropped, as in the source. -/
def lm3633_led_work (R : lmu_register) (lmu_led : ti_lmu_led) : ti_lmu_led :=
  let lmu_led := { lmu_led with work_pending := false, chip := mutex_lock lmu_led.chip }
  let r := ti_lmu_write_byte lmu_led.chip.lmu
    (R.LM3633_REG_BRT_LVLED_BASE + lmu_led.bank_id) lmu_led.brightness
  let lmu_led := { lmu_led with chip := { lmu_led.chip with lmu := r.2 } }
  let lmu_led :=
    if lmu_led.brightness = 0 then (lm3633_led_enable_bank R lmu_led false).2
    else (lm3633_led_enable_bank R lmu_led true).2
  { lmu_led with chip := mutex_unlock lmu_led.chip }

/-- The function lm3633_led_brightness_set: stores the value and schedules
the work item. -/
def lm3633_led_brightness_set (lmu_led : ti_lmu_led) (brt_val : Nat) : ti_lmu_led :=
  { lmu_led with brightness := brt_val, work_pending := true }

/-! ## Initialisation -/

/-- The function lm3633_led_init.  `class_ret` and `sysfs_ret` are the
return codes of led_classdev_register and sysfs_create_group, which belong
to the LED class core. -/
def lm3633_led_init (R : lmu_register) (lmu_led : ti_lmu_led) (bank_id : Nat)
    (class_ret sysfs_ret : Int) : Int × ti_lmu_led :=
  let r := lm3633_led_config_bank R lmu_led
  if r.1 ≠ 0 then r else
  let r := lm3633_led_set_max_current R r.2
  if r.1 ≠ 0 then r else
  let name := match r.2.led_pdata.name with
    | some n => n
    | none => String.mk ((LM3633_DEFAULT_LED_NAME.toList ++ ':' :: utoa bank_id).take 11)
  let lmu_led := { r.2 with
    cdev := { r.2.cdev with max_brightness := LM3633_LED_MAX_BRIGHTNESS, name := name } }
  if class_ret ≠ 0 then (class_ret, lmu_led) else
  let lmu_led := { lmu_led with cdev := { lmu_led.cdev with registered := true } }
  if sysfs_ret ≠ 0 then (sysfs_ret, lmu_led) else
  let lmu_led := { lmu_led with cdev := { lmu_led.cdev with has_attr_group := true } }
  (0, { lmu_led with work_pending := false })

/-- The body of the loop of lm3633_led_probe for the LED of index `i`:
`each` comes zeroed from devm_kzalloc, gets `bank_id = 0`, the chip and its
descriptor, and is initialised by lm3633_led_init. -/
def lm3633_led_probe_each (R : lmu_register) (chip : ti_lmu_led_chip)
    (pdata : ti_lmu_led_platform_data) (i : Nat) (class_ret sysfs_ret : Int) :
    Int × ti_lmu_led :=
  let each : ti_lmu_led :=
    { bank_id := 0
      cdev := { name := "", max_brightness := 0, registered := false, has_attr_group := false }
      chip := chip
      led_pdata := pdata
      work_pending := false
      brightness := 0
      time := { delay := 0, rise := 0, high := 0, fall := 0, low := 0 }
      level := { low := 0, high := 0 } }
  lm3633_led_init R each i class_ret sysfs_ret

/-! ## Concrete configurations -/

/-- A register map with distinct registers, for concrete runs. -/
def R0 : lmu_register :=
  { LM3633_REG_BANK_SEL := 0x11
    LM3633_REG_ENABLE := 0x2B
    LM3633_LED_BANK_OFFSET := 2
    LM3633_REG_PATTERN := 0x2C
    LM3633_PATTERN_EN := 1
    LM3633_REG_IMAX_LVLED_BASE := 0x22
    LM3633_REG_BRT_LVLED_BASE := 0x44 }

/-- A chip whose registers are all zero, whose transport and effect
subsystem always succeed and on which nothing has happened yet. -/
def chip0 : ti_lmu_led_chip :=
  { lmu := { regs := fun _ => 0, io_ret := fun _ => 0, io_log := [],
             effect_ret := fun _ => 0, effect_log := [] }
    lock := false
    lock_count := 0
    num_leds := 1 }

/-- An LED on `chip0` that uses the output lines of `led_string`, with bank
`bank_id` and zeroed pattern data. -/
def led0 (bank_id led_string : Nat) : ti_lmu_led :=
  { bank_id := bank_id
    cdev := { name := "", max_brightness := 0, registered := false, has_attr_group := false }
    chip := chip0
    led_pdata := { name := none, led_string := led_string, imax := 0 }
    work_pending := false
    brightness := 0
    time := { delay := 0, rise := 0, high := 0, fall := 0, low := 0 }
    level := { low := 0, high := 0 } }

/-! ## Definitions used by the statements -/

/-- The bank that the iteration for index `i` chooses on the mask `m`. -/
def chosen_bank (m i : Nat) : Nat :=
  if m &&& group_led i ≠ 0 then default_id i else separate_id i

/-- The sequence of effect requests that the spec gives for pattern-times:
delay, high-time, low-time, then ramp-up and ramp-down of the low group
(banks 0, 1, 2) or of the high group (banks 3, 4, 5). -/
def pattern_times_requests (bank_id : Nat) : List lmu_effect_request_id :=
  [LED_EFFECT_DELAY, LED_EFFECT_HIGHTIME, LED_EFFECT_LOWTIME]
    ++ (if bank_id ≤ 2 then [LED_EFFECT_PTN0_RAMPUP, LED_EFFECT_PTN0_RAMPDN]
        else if bank_id ≤ 5 then [LED_EFFECT_PTN1_RAMPUP, LED_EFFECT_PTN1_RAMPDN]
        else [])

/-- White space only (possibly nothing). -/
def all_space (ws : List Char) : Bool := ws.all isspace

/-- A separator: white space, at least one character. -/
def is_blank (ws : List Char) : Bool := !ws.isEmpty && ws.all isspace

/-- What may follow the last number: the end of the input or a character
that is not a decimal digit. -/
def ends_number (tail : List Char) : Bool :=
  match tail with
  | [] => true
  | c :: _ => !isdigit c

/-! ## Bits of bytes -/

theorem and_BIT_ne_zero (m k : Nat) : m &&& BIT k ≠ 0 ↔ m.testBit k = true := by
  unfold BIT
  rw [Nat.one_shiftLeft, Nat.and_two_pow]
  cases m.testBit k <;> simp

theorem testBit_255 (j : Nat) : Nat.testBit 255 j = decide (j < 8) := by
  have h : (255 : Nat) = 2 ^ 8 - 1 := by norm_num
  rw [h, Nat.testBit_two_pow_sub_one]

theorem BIT_mod_256 (k : Nat) (hk : k < 8) : BIT k % 256 = 2 ^ k := by
  unfold BIT
  rw [Nat.one_shiftLeft]
  apply Nat.mod_eq_of_lt
  have h : (256 : Nat) = 2 ^ 8 := by norm_num
  rw [h]
  exact Nat.pow_lt_pow_right (by norm_num) hk

/-- Bit `j` of a byte after a masked write of the single bit `k` with all
ones as value: bit `k` is set, the other bits stay. -/
theorem testBit_set_bit (old k j : Nat) (hj : j < 8) :
    ((old &&& (255 ^^^ 2 ^ k)) ||| (2 ^ k &&& 2 ^ k)).testBit j
      = if j = k then true else old.testBit j := by
  simp only [Nat.testBit_or, Nat.testBit_and, Nat.testBit_xor, testBit_255, Nat.testBit_two_pow]
  by_cases h : j = k
  · subst h; simp [hj]
  · have h' : ¬ k = j := fun e => h e.symm
    simp [h, h', hj]

/-- Bit `j` of a byte after a masked write of the single bit `k` with zero
as value: bit `k` is clear, the other bits stay. -/
theorem testBit_clear_bit (old k j : Nat) (hj : j < 8) :
    ((old &&& (255 ^^^ 2 ^ k)) ||| (0 &&& 2 ^ k)).testBit j
      = if j = k then false else old.testBit j := by
  simp only [Nat.testBit_or, Nat.testBit_and, Nat.testBit_xor, testBit_255, Nat.testBit_two_pow,
    Nat.zero_testBit]
  by_cases h : j = k
  · subst h; simp [hj]
  · have h' : ¬ k = j := fun e => h e.symm
    simp [h, h', hj]

/-! ## Bank allocator: the loop -/

theorem range_MAX_LEDS : List.range LM3633_MAX_LEDS = [0, 1, 2, 3, 4, 5] := by decide

theorem update_bits_ok (lmu : ti_lmu) (reg mask val : Nat) (h : ∀ n, lmu.io_ret n = 0) :
    (ti_lmu_update_bits lmu reg mask val).1 = 0
    ∧ (ti_lmu_update_bits lmu reg mask val).2.io_ret = lmu.io_ret
    ∧ (ti_lmu_update_bits lmu reg mask val).2.regs
        = Function.update lmu.regs reg
            (((lmu.regs reg) &&& (255 ^^^ (mask % 256))) ||| ((val % 256) &&& (mask % 256))) := by
  simp [ti_lmu_update_bits, h]

theorem config_bank_iter_ok (R : lmu_register) (i : Nat) (lmu_led : ti_lmu_led)
    (h : ∀ n, lmu_led.chip.lmu.io_ret n = 0) :
    (config_bank_iter R i lmu_led).1 = 0
    ∧ (config_bank_iter R i lmu_led).2.led_pdata = lmu_led.led_pdata
    ∧ (config_bank_iter R i lmu_led).2.chip.lmu.io_ret = lmu_led.chip.lmu.io_ret
    ∧ (config_bank_iter R i lmu_led).2.bank_id
        = if i ≠ 0 ∧ i ≠ 3 ∧ lmu_led.led_pdata.led_string.testBit i = true
          then chosen_bank lmu_led.led_pdata.led_string i else lmu_led.bank_id := by
  unfold config_bank_iter
  by_cases h03 : i = 0 ∨ i = 3
  · have : ¬ (i ≠ 0 ∧ i ≠ 3 ∧ lmu_led.led_pdata.led_string.testBit i = true) := by
      rintro ⟨a, b, -⟩
      rcases h03 with e | e
      · exact a e
      · exact b e
    simp [h03, this]
  · have h0 : i ≠ 0 := fun e => h03 (Or.inl e)
    have h3 : i ≠ 3 := fun e => h03 (Or.inr e)
    by_cases hb : lmu_led.led_pdata.led_string.testBit i = true
    · have hu := update_bits_ok lmu_led.chip.lmu R.LM3633_REG_BANK_SEL (BIT i)
        (if lmu_led.led_pdata.led_string &&& group_led i ≠ 0 then 0 else BIT i) h
      rw [if_neg h03, if_pos hb]
      refine ⟨hu.1, rfl, hu.2.1, ?_⟩
      simp [h0, h3, hb, chosen_bank]
    · simp [h03, hb]

/-- With a succeeding transport the loop runs through the whole list; the
bank it leaves is the one chosen at the last index whose bit is set. -/
theorem config_bank_loop_ok (R : lmu_register) (l : List Nat) :
    ∀ lmu_led : ti_lmu_led, (∀ n, lmu_led.chip.lmu.io_ret n = 0) →
      (config_bank_loop R l lmu_led).1 = 0
      ∧ (config_bank_loop R l lmu_led).2.bank_id
          = l.foldl (fun b i =>
              if i ≠ 0 ∧ i ≠ 3 ∧ lmu_led.led_pdata.led_string.testBit i = true
              then chosen_bank lmu_led.led_pdata.led_string i else b) lmu_led.bank_id := by
  induction l with
  | nil => intro lmu_led _; simp [config_bank_loop]
  | cons i rest ih =>
    intro lmu_led h
    obtain ⟨h1, h2, h3, h4⟩ := config_bank_iter_ok R i lmu_led h
    have h' : ∀ n, (config_bank_iter R i lmu_led).2.chip.lmu.io_ret n = 0 := by
      intro n; rw [h3]; exact h n
    obtain ⟨g1, g2⟩ := ih (config_bank_iter R i lmu_led).2 h'
    simp only [config_bank_loop, h1, ne_eq, not_true_eq_false, if_false, List.foldl_cons]
    refine ⟨g1, ?_⟩
    rw [g2, h2, h4]

/-! ## Bank allocator: the bank assigned for an index -/

theorem chosen_bank_eq (m i : Nat) (hi : i = 1 ∨ i = 2 ∨ i = 4 ∨ i = 5) :
    chosen_bank m i
      = if i ≤ 2 then (if m.testBit 0 then 0 else i) else (if m.testBit 3 then 3 else i) := by
  have h0 := and_BIT_ne_zero m 0
  have h3 := and_BIT_ne_zero m 3
  rcases hi with h | h | h | h <;> subst h <;>
    simp only [chosen_bank, group_led, default_id, separate_id, List.getD_cons_succ,
      List.getD_cons_zero, LM3633_LED_BANK_C, LM3633_LED_BANK_D, LM3633_LED_BANK_E,
      LM3633_LED_BANK_F, LM3633_LED_BANK_G, LM3633_LED_BANK_H]
  · by_cases hm : m.testBit 0 = true <;> simp [hm, h0]
  · by_cases hm : m.testBit 0 = true <;> simp [hm, h0]
  · by_cases hm : m.testBit 3 = true <;> simp [hm, h3]
  · by_cases hm : m.testBit 3 = true <;> simp [hm, h3]

/-- One iteration keeps the descriptor and, whatever the transport answers,
leaves the bank chosen for the index when the index is not 0 or 3 and its bit
is set, and the bank it found otherwise. -/
theorem config_bank_iter_bank (R : lmu_register) (i : Nat) (lmu_led : ti_lmu_led) :
    (config_bank_iter R i lmu_led).2.led_pdata = lmu_led.led_pdata
    ∧ (config_bank_iter R i lmu_led).2.bank_id
        = if i ≠ 0 ∧ i ≠ 3 ∧ lmu_led.led_pdata.led_string.testBit i = true
          then chosen_bank lmu_led.led_pdata.led_string i else lmu_led.bank_id := by
  unfold config_bank_iter
  by_cases h03 : i = 0 ∨ i = 3
  · have : ¬ (i ≠ 0 ∧ i ≠ 3 ∧ lmu_led.led_pdata.led_string.testBit i = true) := by
      rintro ⟨a, b, -⟩
      rcases h03 with e | e
      · exact a e
      · exact b e
    simp [h03, this]
  · have h0 : i ≠ 0 := fun e => h03 (Or.inl e)
    have h3 : i ≠ 3 := fun e => h03 (Or.inr e)
    by_cases hb : lmu_led.led_pdata.led_string.testBit i = true
    · rw [if_neg h03, if_pos hb]
      refine ⟨rfl, ?_⟩
      simp [h0, h3, hb, chosen_bank]
    · simp [h03, hb]

theorem config_bank_loop_pdata (R : lmu_register) (l : List Nat) :
    ∀ lmu_led : ti_lmu_led, (config_bank_loop R l lmu_led).2.led_pdata = lmu_led.led_pdata := by
  induction l with
  | nil => intro lmu_led; rfl
  | cons i rest ih =>
    intro lmu_led
    unfold config_bank_loop
    dsimp only
    by_cases hr : (config_bank_iter R i lmu_led).1 ≠ 0
    · rw [if_pos hr]; exact (config_bank_iter_bank R i lmu_led).1
    · rw [if_neg hr, ih]; exact (config_bank_iter_bank R i lmu_led).1

theorem config_bank_loop_cons (R : lmu_register) (i : Nat) (rest : List Nat)
    (lmu_led : ti_lmu_led) :
    config_bank_loop R (i :: rest) lmu_led
      = if (config_bank_iter R i lmu_led).1 ≠ 0 then config_bank_iter R i lmu_led
        else config_bank_loop R rest (config_bank_iter R i lmu_led).2 := rfl

/-- The loop over a list cut in two: the second part runs only if the first
part returned 0, and starts from the LED the first part left. -/
theorem config_bank_loop_append (R : lmu_register) (l1 l2 : List Nat) :
    ∀ lmu_led : ti_lmu_led,
      config_bank_loop R (l1 ++ l2) lmu_led
        = if (config_bank_loop R l1 lmu_led).1 ≠ 0 then config_bank_loop R l1 lmu_led
          else config_bank_loop R l2 (config_bank_loop R l1 lmu_led).2 := by
  induction l1 with
  | nil => intro lmu_led; simp [config_bank_loop]
  | cons i rest ih =>
    intro lmu_led
    rw [List.cons_append, config_bank_loop_cons, config_bank_loop_cons]
    by_cases hr : (config_bank_iter R i lmu_led).1 ≠ 0
    · simp only [if_pos hr]
    · simp only [if_neg hr, ih]

/-- A loop that returns 0 went through the whole list; the bank it leaves is
the one chosen at the last index whose bit is set. -/
theorem config_bank_loop_bank (R : lmu_register) (l : List Nat) :
    ∀ lmu_led : ti_lmu_led, (config_bank_loop R l lmu_led).1 = 0 →
      (config_bank_loop R l lmu_led).2.bank_id
        = l.foldl (fun b i =>
            if i ≠ 0 ∧ i ≠ 3 ∧ lmu_led.led_pdata.led_string.testBit i = true
            then chosen_bank lmu_led.led_pdata.led_string i else b) lmu_led.bank_id := by
  induction l with
  | nil => intro lmu_led _; rfl
  | cons i rest ih =>
    intro lmu_led h
    obtain ⟨hp, hbk⟩ := config_bank_iter_bank R i lmu_led
    unfold config_bank_loop at h ⊢
    dsimp only at h ⊢
    by_cases hr : (config_bank_iter R i lmu_led).1 ≠ 0
    · rw [if_pos hr] at h
      exact absurd h hr
    · rw [if_neg hr] at h ⊢
      rw [ih _ h, hp, hbk, List.foldl_cons]

/-- The bank after the iteration for index `i`, when the iterations before
`i` returned 0. -/
theorem config_bank_loop_through (R : lmu_register) (lmu_led : ti_lmu_led) (i : Nat)
    (hi : i = 1 ∨ i = 2 ∨ i = 4 ∨ i = 5)
    (hbit : lmu_led.led_pdata.led_string.testBit i = true)
    (hpre : (config_bank_loop R (List.range i) lmu_led).1 = 0) :
    (config_bank_loop R (List.range (i + 1)) lmu_led).2.bank_id
      = chosen_bank lmu_led.led_pdata.led_string i := by
  have h0 : i ≠ 0 := by omega
  have h3 : i ≠ 3 := by omega
  have hne : ¬ (config_bank_loop R (List.range i) lmu_led).1 ≠ 0 := fun c => c hpre
  obtain ⟨-, hbk⟩ := config_bank_iter_bank R i (config_bank_loop R (List.range i) lmu_led).2
  rw [config_bank_loop_pdata] at hbk
  rw [if_pos ⟨h0, h3, hbit⟩] at hbk
  rw [List.range_succ, config_bank_loop_append, if_neg hne]
  unfold config_bank_loop
  dsimp only
  by_cases hr : (config_bank_iter R i (config_bank_loop R (List.range i) lmu_led).2).1 ≠ 0
  · rw [if_pos hr]; exact hbk
  · rw [if_neg hr]; unfold config_bank_loop; exact hbk

/-- C1: in lm3633_led_config_bank, for every lines-used mask and every index
`i` in {1,2,4,5} whose bit is set in the mask.  The function is its loop
through the index `i` followed, if that part returned 0, by the loop over the
indices after `i`.  When the iterations before `i` returned 0, so that the
iteration for `i` runs, the bank assigned for `i` is the group default bank (0
for 1 and 2, 3 for 4 and 5) when the mask contains the marker bit of the
group (bit 0, respectively bit 3) and the bank `i` otherwise, whatever the
transport answers to the write for `i`.  When the function returns 0 and no
index above `i` among 2, 4, 5 is set in the mask, that bank is the bank the
function leaves on the LED.  The independent banks assigned for two different
indices (on LEDs without the marker bit of the group) differ. -/
theorem config_bank_assigned_bank (R : lmu_register) (lmu_led : ti_lmu_led) (i : Nat)
    (hi : i = 1 ∨ i = 2 ∨ i = 4 ∨ i = 5)
    (hbit : lmu_led.led_pdata.led_string.testBit i = true) :
    (lm3633_led_config_bank R lmu_led
      = if (config_bank_loop R (List.range (i + 1)) lmu_led).1 ≠ 0
        then config_bank_loop R (List.range (i + 1)) lmu_led
        else config_bank_loop R (List.range' (i + 1) (LM3633_MAX_LEDS - (i + 1)))
          (config_bank_loop R (List.range (i + 1)) lmu_led).2)
    ∧ ((config_bank_loop R (List.range i) lmu_led).1 = 0 →
        (config_bank_loop R (List.range (i + 1)) lmu_led).2.bank_id
          = if i ≤ 2 then (if lmu_led.led_pdata.led_string.testBit 0 then 0 else i)
            else (if lmu_led.led_pdata.led_string.testBit 3 then 3 else i))
    ∧ ((lm3633_led_config_bank R lmu_led).1 = 0 →
        (∀ j, (j = 2 ∨ j = 4 ∨ j = 5) → i < j →
          lmu_led.led_pdata.led_string.testBit j = false) →
        (lm3633_led_config_bank R lmu_led).2.bank_id
          = if i ≤ 2 then (if lmu_led.led_pdata.led_string.testBit 0 then 0 else i)
            else (if lmu_led.led_pdata.led_string.testBit 3 then 3 else i))
    ∧ (∀ (other : ti_lmu_led) (j : Nat), (j = 1 ∨ j = 2 ∨ j = 4 ∨ j = 5) → i ≠ j →
        other.led_pdata.led_string.testBit j = true →
        lmu_led.led_pdata.led_string &&& group_led i = 0 →
        other.led_pdata.led_string &&& group_led j = 0 →
        (config_bank_loop R (List.range i) lmu_led).1 = 0 →
        (config_bank_loop R (List.range j) other).1 = 0 →
        (config_bank_loop R (List.range (i + 1)) lmu_led).2.bank_id
          ≠ (config_bank_loop R (List.range (j + 1)) other).2.bank_id) := by
  refine ⟨?_, ?_, ?_, ?_⟩
  · have hsplit : List.range LM3633_MAX_LEDS
        = List.range (i + 1) ++ List.range' (i + 1) (LM3633_MAX_LEDS - (i + 1)) := by
      rcases hi with h | h | h | h <;> subst h <;> decide
    unfold lm3633_led_config_bank
    rw [hsplit, config_bank_loop_append]
  · intro hpre
    rw [config_bank_loop_through R lmu_led i hi hbit hpre, chosen_bank_eq _ _ hi]
  · intro hret hhigh
    have h2 := hhigh 2 (Or.inl rfl)
    have h4 := hhigh 4 (Or.inr (Or.inl rfl))
    have h5 := hhigh 5 (Or.inr (Or.inr rfl))
    unfold lm3633_led_config_bank at hret ⊢
    rw [config_bank_loop_bank R _ lmu_led hret, range_MAX_LEDS, ← chosen_bank_eq _ _ hi]
    simp only [List.foldl_cons, List.foldl_nil]
    rcases hi with h | h | h | h <;> subst h
    · simp [hbit, h2 (by norm_num), h4 (by norm_num), h5 (by norm_num)]
    · simp [hbit, h4 (by norm_num), h5 (by norm_num)]
    · simp [hbit, h5 (by norm_num)]
    · simp [hbit]
  · intro other j hj hij hbj hg hgj hpre hprej
    rw [config_bank_loop_through R lmu_led i hi hbit hpre,
      config_bank_loop_through R other j hj hbj hprej]
    unfold chosen_bank
    rw [if_neg (fun c => c hg), if_neg (fun c => c hgj)]
    rcases hi with h | h | h | h <;> rcases hj with g | g | g | g <;> subst h <;> subst g <;>
      first
        | exact absurd rfl hij
        | decide

/-- Witness of C1: an LED with prior bank 0 that uses the lines 2 and 5 on a
chip whose transport succeeds.  The function leaves bank 5, assigned for
index 5. -/
theorem config_bank_assigned_bank_witness :
    (5 = 1 ∨ 5 = 2 ∨ 5 = 4 ∨ 5 = 5) ∧ (led0 0 36).led_pdata.led_string.testBit 5 = true
    ∧ (lm3633_led_config_bank R0 (led0 0 36)).1 = 0
    ∧ (led0 0 36).bank_id = 0
    ∧ (lm3633_led_config_bank R0 (led0 0 36)).2.bank_id = 5
    ∧ (config_bank_loop R0 (List.range (5 + 1)) (led0 0 36)).2.bank_id = 5 :=
  ⟨by decide, by decide, by decide, by decide,
    (config_bank_assigned_bank R0 (led0 0 36) 5 (by decide) (by decide)).2.2.1
      (by decide) (fun j hj hlt => by omega),
    (config_bank_assigned_bank R0 (led0 0 36) 5 (by decide) (by decide)).2.1 (by decide)⟩

/-! ## Channels 0 and 3 -/

/-- The indices 0 and 3 are skipped: their iterations write nothing and leave
the LED as it is. -/
theorem config_bank_iter_fixed (R : lmu_register) (lmu_led : ti_lmu_led) :
    config_bank_iter R 0 lmu_led = (0, lmu_led) ∧ config_bank_iter R 3 lmu_led = (0, lmu_led) := by
  simp [config_bank_iter]

/-- A mask without the bits 1, 2, 4 and 5 makes lm3633_led_config_bank
return at once: no register access, no change of the LED. -/
theorem config_bank_no_lines (R : lmu_register) (lmu_led : ti_lmu_led)
    (h1 : lmu_led.led_pdata.led_string.testBit 1 = false)
    (h2 : lmu_led.led_pdata.led_string.testBit 2 = false)
    (h4 : lmu_led.led_pdata.led_string.testBit 4 = false)
    (h5 : lmu_led.led_pdata.led_string.testBit 5 = false) :
    lm3633_led_config_bank R lmu_led = (0, lmu_led) := by
  simp [lm3633_led_config_bank, range_MAX_LEDS, config_bank_loop, config_bank_iter,
    h1, h2, h4, h5]

/-- After lm3633_led_config_bank nothing in lm3633_led_init touches the
bank. -/
theorem led_init_bank_id (R : lmu_register) (lmu_led : ti_lmu_led) (bank_id : Nat)
    (class_ret sysfs_ret : Int) :
    (lm3633_led_init R lmu_led bank_id class_ret sysfs_ret).2.bank_id
      = (lm3633_led_config_bank R lmu_led).2.bank_id := by
  unfold lm3633_led_init
  dsimp only
  split_ifs <;> rfl

/-- An LED that uses only the output line 0 has bank 0 after probe. -/
theorem probe_only_line0 (R : lmu_register) (chip : ti_lmu_led_chip) (name : Option String)
    (imax i : Nat) (class_ret sysfs_ret : Int) :
    (lm3633_led_probe_each R chip ⟨name, BIT 0, imax⟩ i class_ret sysfs_ret).2.bank_id = 0 := by
  unfold lm3633_led_probe_each
  dsimp only
  rw [led_init_bank_id, config_bank_no_lines]
  · show Nat.testBit (BIT 0) 1 = false
    decide
  · show Nat.testBit (BIT 0) 2 = false
    decide
  · show Nat.testBit (BIT 0) 4 = false
    decide
  · show Nat.testBit (BIT 0) 5 = false
    decide

/-- C2, the code at the failing input: an LED that uses only the output line
3 (bit 3 of the lines-used mask) leaves probe with bank 0, not with bank 3,
whatever the register map, the chip, the name, the max-current selector and
the outcomes of registration are: probe sets `bank_id = 0` and
lm3633_led_config_bank skips index 3. -/
theorem probe_only_line3_bank (R : lmu_register) (chip : ti_lmu_led_chip)
    (name : Option String) (imax i : Nat) (class_ret sysfs_ret : Int) :
    (lm3633_led_probe_each R chip ⟨name, BIT 3, imax⟩ i class_ret sysfs_ret).2.bank_id = 0
    ∧ (lm3633_led_probe_each R chip ⟨name, BIT 3, imax⟩ i class_ret sysfs_ret).2.bank_id
        ≠ LM3633_LED_BANK_F := by
  have key : (lm3633_led_probe_each R chip ⟨name, BIT 3, imax⟩ i class_ret sysfs_ret).2.bank_id
      = 0 := by
    unfold lm3633_led_probe_each
    dsimp only
    rw [led_init_bank_id, config_bank_no_lines]
    · show Nat.testBit (BIT 3) 1 = false
      decide
    · show Nat.testBit (BIT 3) 2 = false
      decide
    · show Nat.testBit (BIT 3) 4 = false
      decide
    · show Nat.testBit (BIT 3) 5 = false
      decide
  refine ⟨key, ?_⟩
  rw [key]
  decide

/-! ## Bank allocator: the bank left on the LED -/

/-- C10: with a succeeding transport the bank that lm3633_led_config_bank
leaves on the LED is the bank chosen for the highest index among 1, 2, 4, 5
whose bit is set in the mask, and the prior bank when none of these bits is
set; an LED whose mask has bit 4 or bit 5 ends with a bank of the 3-5 group;
the resulting bank is in 0..5 when the prior bank is. -/
theorem config_bank_final_bank (R : lmu_register) (lmu_led : ti_lmu_led)
    (h : ∀ n, lmu_led.chip.lmu.io_ret n = 0) :
    (lm3633_led_config_bank R lmu_led).2.bank_id
      = (if lmu_led.led_pdata.led_string.testBit 5 then
          (if lmu_led.led_pdata.led_string.testBit 3 then 3 else 5)
        else if lmu_led.led_pdata.led_string.testBit 4 then
          (if lmu_led.led_pdata.led_string.testBit 3 then 3 else 4)
        else if lmu_led.led_pdata.led_string.testBit 2 then
          (if lmu_led.led_pdata.led_string.testBit 0 then 0 else 2)
        else if lmu_led.led_pdata.led_string.testBit 1 then
          (if lmu_led.led_pdata.led_string.testBit 0 then 0 else 1)
        else lmu_led.bank_id)
    ∧ ((lmu_led.led_pdata.led_string.testBit 4 = true
          ∨ lmu_led.led_pdata.led_string.testBit 5 = true) →
        3 ≤ (lm3633_led_config_bank R lmu_led).2.bank_id
        ∧ (lm3633_led_config_bank R lmu_led).2.bank_id ≤ 5)
    ∧ (lmu_led.bank_id ≤ 5 → (lm3633_led_config_bank R lmu_led).2.bank_id ≤ 5) := by
  have h0 := and_BIT_ne_zero lmu_led.led_pdata.led_string 0
  have h3 := and_BIT_ne_zero lmu_led.led_pdata.led_string 3
  have key := (config_bank_loop_ok R [0, 1, 2, 3, 4, 5] lmu_led h).2
  rw [← range_MAX_LEDS] at key
  unfold lm3633_led_config_bank
  rw [key, range_MAX_LEDS]
  simp only [List.foldl_cons, List.foldl_nil, chosen_bank, group_led, default_id, separate_id,
    List.getD_cons_succ, List.getD_cons_zero, LM3633_LED_BANK_C, LM3633_LED_BANK_D,
    LM3633_LED_BANK_E, LM3633_LED_BANK_F, LM3633_LED_BANK_G, LM3633_LED_BANK_H]
  by_cases b0 : lmu_led.led_pdata.led_string.testBit 0 = true <;>
  by_cases b3 : lmu_led.led_pdata.led_string.testBit 3 = true <;>
  by_cases b1 : lmu_led.led_pdata.led_string.testBit 1 = true <;>
  by_cases b2 : lmu_led.led_pdata.led_string.testBit 2 = true <;>
  by_cases b4 : lmu_led.led_pdata.led_string.testBit 4 = true <;>
  by_cases b5 : lmu_led.led_pdata.led_string.testBit 5 = true <;>
  simp [b0, b1, b2, b3, b4, b5, h0, h3]

/-- Witness of C10: an LED using the lines 1, 2 and 5 on a chip whose
transport succeeds. -/
theorem config_bank_final_bank_witness :
    (∀ n, (led0 0 38).chip.lmu.io_ret n = 0)
    ∧ ((lm3633_led_config_bank R0 (led0 0 38)).2.bank_id
      = (if (led0 0 38).led_pdata.led_string.testBit 5 then
          (if (led0 0 38).led_pdata.led_string.testBit 3 then 3 else 5)
        else if (led0 0 38).led_pdata.led_string.testBit 4 then
          (if (led0 0 38).led_pdata.led_string.testBit 3 then 3 else 4)
        else if (led0 0 38).led_pdata.led_string.testBit 2 then
          (if (led0 0 38).led_pdata.led_string.testBit 0 then 0 else 2)
        else if (led0 0 38).led_pdata.led_string.testBit 1 then
          (if (led0 0 38).led_pdata.led_string.testBit 0 then 0 else 1)
        else (led0 0 38).bank_id)
    ∧ (((led0 0 38).led_pdata.led_string.testBit 4 = true
          ∨ (led0 0 38).led_pdata.led_string.testBit 5 = true) →
        3 ≤ (lm3633_led_config_bank R0 (led0 0 38)).2.bank_id
        ∧ (lm3633_led_config_bank R0 (led0 0 38)).2.bank_id ≤ 5)
    ∧ ((led0 0 38).bank_id ≤ 5 → (lm3633_led_config_bank R0 (led0 0 38)).2.bank_id ≤ 5)) :=
  ⟨fun _ => rfl, config_bank_final_bank R0 (led0 0 38) (fun _ => rfl)⟩

/-- C10 as stated fails: an LED that uses line 1 of the group 0-2 and line 3
of the group 3-5, on a chip whose transport succeeds, ends with bank 1, which
is not a bank of the 3-5 group. -/
theorem config_bank_both_groups_counterexample :
    (∀ n, (led0 0 10).chip.lmu.io_ret n = 0)
    ∧ (led0 0 10).led_pdata.led_string.testBit 1 = true
    ∧ (led0 0 10).led_pdata.led_string.testBit 3 = true
    ∧ (lm3633_led_config_bank R0 (led0 0 10)).1 = 0
    ∧ (lm3633_led_config_bank R0 (led0 0 10)).2.bank_id = 1
    ∧ ¬ (3 ≤ (lm3633_led_config_bank R0 (led0 0 10)).2.bank_id
          ∧ (lm3633_led_config_bank R0 (led0 0 10)).2.bank_id ≤ 5) := by
  refine ⟨fun _ => rfl, by decide, by decide, by decide, by decide, by decide⟩

/-! ## Bank allocator: the bank-select register -/

theorem update_bits_ret_zero (lmu : ti_lmu) (reg mask val : Nat)
    (h : (ti_lmu_update_bits lmu reg mask val).1 = 0) :
    (ti_lmu_update_bits lmu reg mask val).2.regs
      = Function.update lmu.regs reg
          (((lmu.regs reg) &&& (255 ^^^ (mask % 256))) ||| ((val % 256) &&& (mask % 256))) := by
  unfold ti_lmu_update_bits at h ⊢
  dsimp only at h ⊢
  split_ifs at h ⊢ with hr
  · exact absurd h hr
  · rfl

/-- One iteration that returns 0 writes, for an index other than 0 and 3
whose bit is set, the bit of the index in the bank-select register: 0 when
the LED is grouped, 1 when it is not. -/
theorem config_bank_iter_sel (R : lmu_register) (i : Nat) (lmu_led : ti_lmu_led) (hi : i < 8)
    (h : (config_bank_iter R i lmu_led).1 = 0) :
    (config_bank_iter R i lmu_led).2.led_pdata = lmu_led.led_pdata
    ∧ ∀ j, j < 8 →
        ((config_bank_iter R i lmu_led).2.chip.lmu.regs R.LM3633_REG_BANK_SEL).testBit j
          = if j = i ∧ i ≠ 0 ∧ i ≠ 3 ∧ lmu_led.led_pdata.led_string.testBit i = true
            then !decide (lmu_led.led_pdata.led_string &&& group_led i ≠ 0)
            else (lmu_led.chip.lmu.regs R.LM3633_REG_BANK_SEL).testBit j := by
  unfold config_bank_iter at h ⊢
  by_cases h03 : i = 0 ∨ i = 3
  · have : ¬ (i ≠ 0 ∧ i ≠ 3 ∧ lmu_led.led_pdata.led_string.testBit i = true) := by
      rintro ⟨a, b, -⟩
      rcases h03 with e | e
      · exact a e
      · exact b e
    simp [h03, this]
  · have h0 : i ≠ 0 := fun e => h03 (Or.inl e)
    have h3 : i ≠ 3 := fun e => h03 (Or.inr e)
    by_cases hb : lmu_led.led_pdata.led_string.testBit i = true
    · rw [if_neg h03, if_pos hb] at h ⊢
      refine ⟨rfl, ?_⟩
      intro j hj
      dsimp only at h ⊢
      rw [update_bits_ret_zero _ _ _ _ h, Function.update_same, BIT_mod_256 i hi]
      by_cases hg : lmu_led.led_pdata.led_string &&& group_led i ≠ 0
      · rw [if_pos hg, Nat.zero_mod, testBit_clear_bit _ _ _ hj]
        by_cases hji : j = i <;> simp [hji, h0, h3, hb, hg]
      · rw [if_neg hg, BIT_mod_256 i hi, testBit_set_bit _ _ _ hj]
        by_cases hji : j = i <;> simp [hji, h0, h3, hb, hg]
    · simp [h03, hb]

theorem config_bank_loop_sel (R : lmu_register) (l : List Nat) :
    ∀ lmu_led : ti_lmu_led, (∀ i ∈ l, i < 8) → l.Nodup →
      (config_bank_loop R l lmu_led).1 = 0 →
      ∀ j, j < 8 →
        ((config_bank_loop R l lmu_led).2.chip.lmu.regs R.LM3633_REG_BANK_SEL).testBit j
          = if j ∈ l ∧ j ≠ 0 ∧ j ≠ 3 ∧ lmu_led.led_pdata.led_string.testBit j = true
            then !decide (lmu_led.led_pdata.led_string &&& group_led j ≠ 0)
            else (lmu_led.chip.lmu.regs R.LM3633_REG_BANK_SEL).testBit j := by
  induction l with
  | nil => intro lmu_led _ _ _ j _; simp [config_bank_loop]
  | cons i rest ih =>
    intro lmu_led hl hnd h j hj
    have hi : i < 8 := hl i (List.mem_cons_self i rest)
    have hrest : ∀ k ∈ rest, k < 8 := fun k hk => hl k (List.mem_cons_of_mem i hk)
    have hnd' := List.nodup_cons.mp hnd
    unfold config_bank_loop at h ⊢
    dsimp only at h ⊢
    by_cases hr : (config_bank_iter R i lmu_led).1 ≠ 0
    · rw [if_pos hr] at h
      exact absurd h hr
    · rw [if_neg hr] at h ⊢
      have hr0 : (config_bank_iter R i lmu_led).1 = 0 := not_not.mp hr
      obtain ⟨hp, hbits⟩ := config_bank_iter_sel R i lmu_led hi hr0
      rw [ih _ hrest hnd'.2 h j hj, hp, hbits j hj]
      by_cases hji : j = i
      · subst hji
        simp [hnd'.1]
      · have : ¬ (j = i ∧ i ≠ 0 ∧ i ≠ 3 ∧ lmu_led.led_pdata.led_string.testBit i = true) :=
          fun c => hji c.1
        simp [hji, this]

/-- C8: after lm3633_led_config_bank returns 0, for any mask and any prior
value of the bank-select register, the bit of every index among 1, 2, 4, 5
that is set in the mask is 0 in the bank-select register if the mask contains
the marker bit of the group (bit 0 for 1 and 2, bit 3 for 4 and 5) and 1
otherwise; every other bit of the 8-bit register keeps its value. -/
theorem config_bank_bank_sel (R : lmu_register) (lmu_led : ti_lmu_led)
    (h : (lm3633_led_config_bank R lmu_led).1 = 0) :
    (∀ i, (i = 1 ∨ i = 2) → lmu_led.led_pdata.led_string.testBit i = true →
        ((lm3633_led_config_bank R lmu_led).2.chip.lmu.regs R.LM3633_REG_BANK_SEL).testBit i
          = !lmu_led.led_pdata.led_string.testBit 0)
    ∧ (∀ i, (i = 4 ∨ i = 5) → lmu_led.led_pdata.led_string.testBit i = true →
        ((lm3633_led_config_bank R lmu_led).2.chip.lmu.regs R.LM3633_REG_BANK_SEL).testBit i
          = !lmu_led.led_pdata.led_string.testBit 3)
    ∧ (∀ j, j < 8 →
        ¬ ((j = 1 ∨ j = 2 ∨ j = 4 ∨ j = 5) ∧ lmu_led.led_pdata.led_string.testBit j = true) →
        ((lm3633_led_config_bank R lmu_led).2.chip.lmu.regs R.LM3633_REG_BANK_SEL).testBit j
          = (lmu_led.chip.lmu.regs R.LM3633_REG_BANK_SEL).testBit j) := by
  have h0 := and_BIT_ne_zero lmu_led.led_pdata.led_string 0
  have h3 := and_BIT_ne_zero lmu_led.led_pdata.led_string 3
  unfold lm3633_led_config_bank at h ⊢
  rw [range_MAX_LEDS] at h ⊢
  have key := config_bank_loop_sel R [0, 1, 2, 3, 4, 5] lmu_led (by decide) (by decide) h
  refine ⟨?_, ?_, ?_⟩
  · intro i hi hb
    rcases hi with e | e <;> subst e <;> rw [key _ (by norm_num)] <;>
      simp [hb, group_led, h0]
  · intro i hi hb
    rcases hi with e | e <;> subst e <;> rw [key _ (by norm_num)] <;>
      simp [hb, group_led, h3]
  · intro j hj hn
    rw [key j hj]
    have : ¬ (j ∈ [0, 1, 2, 3, 4, 5] ∧ j ≠ 0 ∧ j ≠ 3
        ∧ lmu_led.led_pdata.led_string.testBit j = true) := by
      rintro ⟨hm, a, b, c⟩
      apply hn
      refine ⟨?_, c⟩
      simp only [List.mem_cons, List.mem_singleton, List.not_mem_nil, or_false] at hm
      omega
    rw [if_neg this]

/-- Witness of C8: an LED using the lines 1 and 4 on a chip whose transport
succeeds. -/
theorem config_bank_bank_sel_witness :
    (lm3633_led_config_bank R0 (led0 0 18)).1 = 0
    ∧ ((∀ i, (i = 1 ∨ i = 2) → (led0 0 18).led_pdata.led_string.testBit i = true →
        ((lm3633_led_config_bank R0 (led0 0 18)).2.chip.lmu.regs
            R0.LM3633_REG_BANK_SEL).testBit i
          = !(led0 0 18).led_pdata.led_string.testBit 0)
    ∧ (∀ i, (i = 4 ∨ i = 5) → (led0 0 18).led_pdata.led_string.testBit i = true →
        ((lm3633_led_config_bank R0 (led0 0 18)).2.chip.lmu.regs
            R0.LM3633_REG_BANK_SEL).testBit i
          = !(led0 0 18).led_pdata.led_string.testBit 3)
    ∧ (∀ j, j < 8 →
        ¬ ((j = 1 ∨ j = 2 ∨ j = 4 ∨ j = 5)
            ∧ (led0 0 18).led_pdata.led_string.testBit j = true) →
        ((lm3633_led_config_bank R0 (led0 0 18)).2.chip.lmu.regs
            R0.LM3633_REG_BANK_SEL).testBit j
          = ((led0 0 18).chip.lmu.regs R0.LM3633_REG_BANK_SEL).testBit j)) :=
  ⟨by decide, config_bank_bank_sel R0 (led0 0 18) (by decide)⟩

/-! ## Malformed attribute input -/

/-- A short input to pattern-levels is rejected with -EINVAL and leaves the
LED, the chip, the registers and the logs as they were. -/
theorem store_pattern_levels_short (R : lmu_register) (buf : String) (len : Nat)
    (lmu_led : ti_lmu_led) (h : (sscanf_u 2 buf.toList).length ≠ 2) :
    lm3633_led_store_pattern_levels R buf len lmu_led = (-EINVAL, lmu_led) := by
  unfold lm3633_led_store_pattern_levels
  dsimp only
  rw [if_pos h]

/-- A short input to pattern-times is rejected with -EINVAL without taking
the lock, without any effect request and without any register access; the
levels stay.  Nothing is said here about the cached times. -/
theorem store_pattern_times_short (buf : String) (len : Nat) (lmu_led : ti_lmu_led)
    (h : (sscanf_u 5 buf.toList).length ≠ 5) :
    (lm3633_led_store_pattern_times buf len lmu_led).1 = -EINVAL
    ∧ (lm3633_led_store_pattern_times buf len lmu_led).2.chip = lmu_led.chip
    ∧ (lm3633_led_store_pattern_times buf len lmu_led).2.level = lmu_led.level := by
  unfold lm3633_led_store_pattern_times
  dsimp only
  rw [if_pos h]
  exact ⟨rfl, rfl, rfl⟩

/-- C3, the code at the failing input: writing "7 8" (two tokens instead of
five) to pattern-times of an LED whose cached times are all 0 returns
-EINVAL, takes no lock, issues no effect request and no register access, and
still changes the cached times: delay becomes 7 and rise becomes 8. -/
theorem store_pattern_times_short_input_mutates :
    (sscanf_u 5 "7 8".toList).length = 2
    ∧ (led0 0 1).time = { delay := 0, rise := 0, high := 0, fall := 0, low := 0 }
    ∧ (lm3633_led_store_pattern_times "7 8" 3 (led0 0 1)).1 = -EINVAL
    ∧ (lm3633_led_store_pattern_times "7 8" 3 (led0 0 1)).2.chip.lock_count = 0
    ∧ (lm3633_led_store_pattern_times "7 8" 3 (led0 0 1)).2.chip.lmu.effect_log = []
    ∧ (lm3633_led_store_pattern_times "7 8" 3 (led0 0 1)).2.chip.lmu.io_log = []
    ∧ (lm3633_led_store_pattern_times "7 8" 3 (led0 0 1)).2.time
        = { delay := 7, rise := 8, high := 0, fall := 0, low := 0 }
    ∧ (lm3633_led_store_pattern_times "7 8" 3 (led0 0 1)).2.time ≠ (led0 0 1).time := by
  refine ⟨by decide, by decide, by decide, by decide, by decide, by decide, by decide, by decide⟩

/-! ## Pattern timing: the sequence of effect requests -/

theorem effect_request_eq (id : lmu_effect_request_id) (lmu_led : ti_lmu_led) :
    lm3633_led_effect_request id lmu_led
      = (lmu_led.chip.lmu.effect_ret lmu_led.chip.lmu.effect_log.length,
         { lmu_led with chip := { lmu_led.chip with lmu := { lmu_led.chip.lmu with
             effect_log := lmu_led.chip.lmu.effect_log ++ [id] } } }) := rfl

/-- C9: on an LED with a bank in 0..5 and an input of five tokens,
lm3633_led_store_pattern_times issues the effect requests in the order DELAY,
HIGHTIME, LOWTIME and then PTN0_RAMPUP, PTN0_RAMPDN for the banks 0, 1, 2 or
PTN1_RAMPUP, PTN1_RAMPDN for the banks 3, 4, 5.  If the k-th request
(counting from 1) is the first one that is refused, exactly the first k
requests are issued, the error of the k-th is returned and the lock is
released; if none is refused, all five are issued, the input length is
returned and the lock is released. -/
theorem store_pattern_times_requests (buf : String) (len : Nat) (lmu_led : ti_lmu_led)
    (hb : lmu_led.bank_id ≤ 5) (hp : (sscanf_u 5 buf.toList).length = 5) :
    (∀ k, 1 ≤ k → k ≤ 5 →
      (∀ j, j + 1 < k →
        lmu_led.chip.lmu.effect_ret (lmu_led.chip.lmu.effect_log.length + j) = 0) →
      lmu_led.chip.lmu.effect_ret (lmu_led.chip.lmu.effect_log.length + (k - 1)) ≠ 0 →
      (lm3633_led_store_pattern_times buf len lmu_led).1
          = lmu_led.chip.lmu.effect_ret (lmu_led.chip.lmu.effect_log.length + (k - 1))
      ∧ (lm3633_led_store_pattern_times buf len lmu_led).2.chip.lmu.effect_log
          = lmu_led.chip.lmu.effect_log ++ (pattern_times_requests lmu_led.bank_id).take k
      ∧ (lm3633_led_store_pattern_times buf len lmu_led).2.chip.lock = false)
    ∧ ((∀ j, j < 5 →
        lmu_led.chip.lmu.effect_ret (lmu_led.chip.lmu.effect_log.length + j) = 0) →
      (lm3633_led_store_pattern_times buf len lmu_led).1 = len
      ∧ (lm3633_led_store_pattern_times buf len lmu_led).2.chip.lmu.effect_log
          = lmu_led.chip.lmu.effect_log ++ pattern_times_requests lmu_led.bank_id
      ∧ (lm3633_led_store_pattern_times buf len lmu_led).2.chip.lock = false) := by
  have hcases : lmu_led.bank_id = 0 ∨ lmu_led.bank_id = 1 ∨ lmu_led.bank_id = 2 ∨
      lmu_led.bank_id = 3 ∨ lmu_led.bank_id = 4 ∨ lmu_led.bank_id = 5 := by omega
  constructor
  · intro k hk1 hk5 hprev hfail
    have hk : k = 1 ∨ k = 2 ∨ k = 3 ∨ k = 4 ∨ k = 5 := by omega
    have e0 := hprev 0
    have e1 := hprev 1
    have e2 := hprev 2
    have e3 := hprev 3
    rw [Nat.add_zero] at e0
    unfold lm3633_led_store_pattern_times
    rcases hk with h | h | h | h | h <;> subst h <;>
      simp only [Nat.add_zero, Nat.reduceSub, Nat.reduceAdd, Nat.reduceLT, forall_const,
        ne_eq] at e0 e1 e2 e3 hfail <;>
      simp only [hp, ne_eq, not_true_eq_false, if_false, if_true, effect_request_eq, mutex_lock,
        List.length_append, List.length_singleton, e0, e1, e2, e3, hfail, unlock_return,
        mutex_unlock, Nat.add_assoc, Nat.reduceAdd, not_false_eq_true, Nat.add_zero,
        Nat.reduceSub] <;>
      rcases hcases with h | h | h | h | h | h <;>
      simp [h, pattern_times_requests, LM3633_LED_BANK_C, LM3633_LED_BANK_D,
        LM3633_LED_BANK_E, LM3633_LED_BANK_F, LM3633_LED_BANK_G, LM3633_LED_BANK_H, e3, hfail]
  · intro hall
    have e0 := hall 0 (by norm_num)
    have e1 := hall 1 (by norm_num)
    have e2 := hall 2 (by norm_num)
    have e3 := hall 3 (by norm_num)
    have e4 := hall 4 (by norm_num)
    rw [Nat.add_zero] at e0
    unfold lm3633_led_store_pattern_times
    simp only [hp, ne_eq, not_true_eq_false, if_false, effect_request_eq, mutex_lock,
      List.length_append, List.length_singleton, e0, e1, e2, e3, e4, unlock_return, mutex_unlock,
      Nat.add_assoc, Nat.reduceAdd]
    rcases hcases with h | h | h | h | h | h <;>
      simp [h, pattern_times_requests, LM3633_LED_BANK_C, LM3633_LED_BANK_D, LM3633_LED_BANK_E,
        LM3633_LED_BANK_F, LM3633_LED_BANK_G, LM3633_LED_BANK_H, e3, e4]

/-- Witness of C9: an LED on bank 4 whose effect requests all succeed. -/
theorem store_pattern_times_requests_witness :
    (led0 4 16).bank_id ≤ 5 ∧ (sscanf_u 5 "5 10 20 30 40".toList).length = 5
    ∧ (lm3633_led_store_pattern_times "5 10 20 30 40" 13 (led0 4 16)).1 = (13 : Nat)
    ∧ (lm3633_led_store_pattern_times "5 10 20 30 40" 13 (led0 4 16)).2.chip.lmu.effect_log
        = (led0 4 16).chip.lmu.effect_log ++ pattern_times_requests (led0 4 16).bank_id
    ∧ (lm3633_led_store_pattern_times "5 10 20 30 40" 13 (led0 4 16)).2.chip.lock = false :=
  ⟨by decide, by decide,
    (store_pattern_times_requests "5 10 20 30 40" 13 (led0 4 16) (by decide) (by decide)).2
      (fun _ _ => rfl)⟩

/-! ## Bank enable controller -/

theorem one_shiftLeft_mod_256 (k : Nat) (hk : k < 8) : (1 <<< k) % 256 = 2 ^ k :=
  BIT_mod_256 k hk

/-- With a succeeding transport lm3633_led_enable_bank sets or clears the bit
`bank_id + LM3633_LED_BANK_OFFSET` of the enable register and leaves every
other bit of the register file alone. -/
theorem enable_bank_ok (R : lmu_register) (lmu_led : ti_lmu_led) (on_ : Bool)
    (hio : ∀ n, lmu_led.chip.lmu.io_ret n = 0)
    (hp : lmu_led.bank_id + R.LM3633_LED_BANK_OFFSET < 8) :
    (∀ a, a ≠ R.LM3633_REG_ENABLE →
      (lm3633_led_enable_bank R lmu_led on_).2.chip.lmu.regs a = lmu_led.chip.lmu.regs a)
    ∧ (∀ j, j < 8 →
      ((lm3633_led_enable_bank R lmu_led on_).2.chip.lmu.regs R.LM3633_REG_ENABLE).testBit j
        = if j = lmu_led.bank_id + R.LM3633_LED_BANK_OFFSET then on_
          else (lmu_led.chip.lmu.regs R.LM3633_REG_ENABLE).testBit j)
    ∧ (lm3633_led_enable_bank R lmu_led on_).2.chip.lock = lmu_led.chip.lock := by
  unfold lm3633_led_enable_bank
  rw [one_shiftLeft_mod_256 _ hp]
  have hm : (2 : Nat) ^ (lmu_led.bank_id + R.LM3633_LED_BANK_OFFSET) % 256
      = 2 ^ (lmu_led.bank_id + R.LM3633_LED_BANK_OFFSET) := by
    rw [← one_shiftLeft_mod_256 _ hp, Nat.mod_mod]
  cases on_
  · simp only [Bool.false_eq_true, if_false, ti_lmu_update_bits, hio, ne_eq, not_true_eq_false,
      hm, Nat.zero_mod]
    refine ⟨?_, ?_, trivial⟩
    · intro a ha
      exact Function.update_noteq ha _ _
    · intro j hj
      rw [Function.update_same, testBit_clear_bit _ _ _ hj]
  · simp only [if_true, ti_lmu_update_bits, hio, ne_eq, not_true_eq_false, if_false, hm]
    refine ⟨?_, ?_, trivial⟩
    · intro a ha
      exact Function.update_noteq ha _ _
    · intro j hj
      rw [Function.update_same, testBit_set_bit _ _ _ hj]

/-! ## Run and stop of the pattern -/

/-- C4: lm3633_led_run_pattern on an LED with a bank in 0..5, a succeeding
transport and an input that kstrtoul converts to `v`, for a register map with
LM3633_PATTERN_EN = 1, a bank-bit base of at most 2 (the bit stays inside the
byte) and separate pattern and enable registers.  If `v` is nonzero, the bit
`bank_id + LM3633_LED_BANK_OFFSET` is set afterwards in the pattern register
and in the enable register; if `v` is 0, the bit is clear in the pattern
register and the enable register is unchanged; every other bit of the two
8-bit registers is unchanged. -/
theorem run_pattern_bits (R : lmu_register) (buf : String) (len : Nat) (lmu_led : ti_lmu_led)
    (v : Nat) (hb : lmu_led.bank_id ≤ 5) (hoff : R.LM3633_LED_BANK_OFFSET ≤ 2)
    (hen : R.LM3633_PATTERN_EN = 1) (hreg : R.LM3633_REG_PATTERN ≠ R.LM3633_REG_ENABLE)
    (hio : ∀ n, lmu_led.chip.lmu.io_ret n = 0) (hv : kstrtoul buf.toList = some v) :
    (v ≠ 0 →
      ((lm3633_led_run_pattern R buf len lmu_led).2.chip.lmu.regs R.LM3633_REG_PATTERN).testBit
          (lmu_led.bank_id + R.LM3633_LED_BANK_OFFSET) = true
      ∧ ((lm3633_led_run_pattern R buf len lmu_led).2.chip.lmu.regs R.LM3633_REG_ENABLE).testBit
          (lmu_led.bank_id + R.LM3633_LED_BANK_OFFSET) = true
      ∧ ∀ j, j < 8 → j ≠ lmu_led.bank_id + R.LM3633_LED_BANK_OFFSET →
          ((lm3633_led_run_pattern R buf len lmu_led).2.chip.lmu.regs
              R.LM3633_REG_PATTERN).testBit j
            = (lmu_led.chip.lmu.regs R.LM3633_REG_PATTERN).testBit j
          ∧ ((lm3633_led_run_pattern R buf len lmu_led).2.chip.lmu.regs
              R.LM3633_REG_ENABLE).testBit j
            = (lmu_led.chip.lmu.regs R.LM3633_REG_ENABLE).testBit j)
    ∧ (v = 0 →
      ((lm3633_led_run_pattern R buf len lmu_led).2.chip.lmu.regs R.LM3633_REG_PATTERN).testBit
          (lmu_led.bank_id + R.LM3633_LED_BANK_OFFSET) = false
      ∧ (lm3633_led_run_pattern R buf len lmu_led).2.chip.lmu.regs R.LM3633_REG_ENABLE
          = lmu_led.chip.lmu.regs R.LM3633_REG_ENABLE
      ∧ ∀ j, j < 8 → j ≠ lmu_led.bank_id + R.LM3633_LED_BANK_OFFSET →
          ((lm3633_led_run_pattern R buf len lmu_led).2.chip.lmu.regs
              R.LM3633_REG_PATTERN).testBit j
            = (lmu_led.chip.lmu.regs R.LM3633_REG_PATTERN).testBit j) := by
  have hp : lmu_led.bank_id + R.LM3633_LED_BANK_OFFSET < 8 := by omega
  have hp256 : (lmu_led.bank_id + R.LM3633_LED_BANK_OFFSET) % 256
      = lmu_led.bank_id + R.LM3633_LED_BANK_OFFSET := Nat.mod_eq_of_lt (by omega)
  have hm : (2 : Nat) ^ (lmu_led.bank_id + R.LM3633_LED_BANK_OFFSET) % 256
      = 2 ^ (lmu_led.bank_id + R.LM3633_LED_BANK_OFFSET) := by
    rw [← one_shiftLeft_mod_256 _ hp, Nat.mod_mod]
  have hne : R.LM3633_REG_ENABLE ≠ R.LM3633_REG_PATTERN := fun e => hreg e.symm
  constructor
  · intro hv0
    simp only [lm3633_led_run_pattern, lm3633_led_enable_bank, hv, hen, hp256,
      one_shiftLeft_mod_256 _ hp, hv0, ne_eq, not_false_eq_true, if_true, unlock_return,
      mutex_unlock, mutex_lock,
      ti_lmu_update_bits, hio, not_true_eq_false, if_false, hm]
    refine ⟨?_, ?_, ?_⟩
    · rw [Function.update_noteq hreg, Function.update_same, testBit_set_bit _ _ _ hp, if_pos rfl]
    · rw [Function.update_same, testBit_set_bit _ _ _ hp, if_pos rfl]
    · intro j hj hjp
      constructor
      · rw [Function.update_noteq hreg, Function.update_same, testBit_set_bit _ _ _ hj,
          if_neg hjp]
      · rw [Function.update_same, testBit_set_bit _ _ _ hj, if_neg hjp,
          Function.update_noteq hne]
  · intro hv0
    simp only [lm3633_led_run_pattern, hv, hen, hp256, one_shiftLeft_mod_256 _ hp,
      hv0, ne_eq, not_true_eq_false, if_false, unlock_return, mutex_unlock, mutex_lock,
      ti_lmu_update_bits, hio, hm, Nat.zero_mod]
    refine ⟨?_, ?_, ?_⟩
    · rw [Function.update_same, testBit_clear_bit _ _ _ hp, if_pos rfl]
    · rw [Function.update_noteq hne]
    · intro j hj hjp
      rw [Function.update_same, testBit_clear_bit _ _ _ hj, if_neg hjp]

/-- Witness of C4: writing "1" to run-pattern of an LED on bank 3. -/
theorem run_pattern_bits_witness :
    (led0 3 8).bank_id ≤ 5 ∧ R0.LM3633_LED_BANK_OFFSET ≤ 2 ∧ R0.LM3633_PATTERN_EN = 1
    ∧ R0.LM3633_REG_PATTERN ≠ R0.LM3633_REG_ENABLE
    ∧ (∀ n, (led0 3 8).chip.lmu.io_ret n = 0) ∧ kstrtoul "1\n".toList = some 1
    ∧ ((lm3633_led_run_pattern R0 "1\n" 2 (led0 3 8)).2.chip.lmu.regs
          R0.LM3633_REG_PATTERN).testBit ((led0 3 8).bank_id + R0.LM3633_LED_BANK_OFFSET) = true
    ∧ ((lm3633_led_run_pattern R0 "1\n" 2 (led0 3 8)).2.chip.lmu.regs
          R0.LM3633_REG_ENABLE).testBit ((led0 3 8).bank_id + R0.LM3633_LED_BANK_OFFSET) = true :=
  ⟨by decide, by decide, by decide, by decide, fun _ => rfl, by decide,
    ((run_pattern_bits R0 "1\n" 2 (led0 3 8) 1 (by decide) (by decide) (by decide) (by decide)
      (fun _ => rfl) (by decide)).1 (by decide)).1,
    ((run_pattern_bits R0 "1\n" 2 (led0 3 8) 1 (by decide) (by decide) (by decide) (by decide)
      (fun _ => rfl) (by decide)).1 (by decide)).2.1⟩

/-! ## Brightness: the deferred write -/

/-- C5: for a brightness `v` in 0..255 and an LED with a bank in 0..5, after
lm3633_led_brightness_set and one run of lm3633_led_work with a succeeding
transport, for a register map with a bank-bit base of at most 2 and an enable
register apart from the brightness register of the bank: the brightness
register LM3633_REG_BRT_LVLED_BASE + bank_id holds `v`, the bit
`bank_id + LM3633_LED_BANK_OFFSET` of the enable register is clear if `v` is 0
and set otherwise, and the lock is not held. -/
theorem brightness_work (R : lmu_register) (lmu_led : ti_lmu_led) (v : Nat)
    (hv : v ≤ 255) (hb : lmu_led.bank_id ≤ 5) (hoff : R.LM3633_LED_BANK_OFFSET ≤ 2)
    (hreg : R.LM3633_REG_BRT_LVLED_BASE + lmu_led.bank_id ≠ R.LM3633_REG_ENABLE)
    (hio : ∀ n, lmu_led.chip.lmu.io_ret n = 0) :
    (lm3633_led_work R (lm3633_led_brightness_set lmu_led v)).chip.lmu.regs
        (R.LM3633_REG_BRT_LVLED_BASE + lmu_led.bank_id) = v
    ∧ (v = 0 →
        ((lm3633_led_work R (lm3633_led_brightness_set lmu_led v)).chip.lmu.regs
          R.LM3633_REG_ENABLE).testBit (lmu_led.bank_id + R.LM3633_LED_BANK_OFFSET) = false)
    ∧ (v ≠ 0 →
        ((lm3633_led_work R (lm3633_led_brightness_set lmu_led v)).chip.lmu.regs
          R.LM3633_REG_ENABLE).testBit (lmu_led.bank_id + R.LM3633_LED_BANK_OFFSET) = true)
    ∧ (lm3633_led_work R (lm3633_led_brightness_set lmu_led v)).chip.lock = false := by
  have hp : lmu_led.bank_id + R.LM3633_LED_BANK_OFFSET < 8 := by omega
  have hm : (2 : Nat) ^ (lmu_led.bank_id + R.LM3633_LED_BANK_OFFSET) % 256
      = 2 ^ (lmu_led.bank_id + R.LM3633_LED_BANK_OFFSET) := by
    rw [← one_shiftLeft_mod_256 _ hp, Nat.mod_mod]
  have hv256 : v % 256 = v := Nat.mod_eq_of_lt (by omega)
  by_cases hv0 : v = 0
  · subst hv0
    simp only [lm3633_led_work, lm3633_led_brightness_set, lm3633_led_enable_bank,
      ti_lmu_write_byte, ti_lmu_update_bits, mutex_lock, mutex_unlock, hio, ne_eq,
      not_true_eq_false, if_false, if_true, one_shiftLeft_mod_256 _ hp, hm, Nat.zero_mod,
      Bool.false_eq_true, forall_const, not_true_eq_false, false_implies, and_true, true_and]
    refine ⟨?_, ?_⟩
    · rw [Function.update_noteq hreg, Function.update_same]
    · rw [Function.update_same, testBit_clear_bit _ _ _ hp, if_pos rfl]
  · simp only [lm3633_led_work, lm3633_led_brightness_set, lm3633_led_enable_bank,
      ti_lmu_write_byte, ti_lmu_update_bits, mutex_lock, mutex_unlock, hio, ne_eq,
      not_true_eq_false, if_false, if_true, one_shiftLeft_mod_256 _ hp, hm, hv0, hv256,
      not_false_eq_true, forall_const, false_implies, and_true, true_and]
    refine ⟨?_, ?_⟩
    · rw [Function.update_noteq hreg, Function.update_same]
    · rw [Function.update_same, testBit_set_bit _ _ _ hp, if_pos rfl]

/-- Witness of C5: brightness 200 on an LED of bank 3. -/
theorem brightness_work_witness :
    200 ≤ 255 ∧ (led0 3 8).bank_id ≤ 5 ∧ R0.LM3633_LED_BANK_OFFSET ≤ 2
    ∧ R0.LM3633_REG_BRT_LVLED_BASE + (led0 3 8).bank_id ≠ R0.LM3633_REG_ENABLE
    ∧ (∀ n, (led0 3 8).chip.lmu.io_ret n = 0)
    ∧ ((lm3633_led_work R0 (lm3633_led_brightness_set (led0 3 8) 200)).chip.lmu.regs
        (R0.LM3633_REG_BRT_LVLED_BASE + (led0 3 8).bank_id) = 200
      ∧ (200 = 0 →
        ((lm3633_led_work R0 (lm3633_led_brightness_set (led0 3 8) 200)).chip.lmu.regs
          R0.LM3633_REG_ENABLE).testBit ((led0 3 8).bank_id + R0.LM3633_LED_BANK_OFFSET)
            = false)
      ∧ (200 ≠ 0 →
        ((lm3633_led_work R0 (lm3633_led_brightness_set (led0 3 8) 200)).chip.lmu.regs
          R0.LM3633_REG_ENABLE).testBit ((led0 3 8).bank_id + R0.LM3633_LED_BANK_OFFSET)
            = true)
      ∧ (lm3633_led_work R0 (lm3633_led_brightness_set (led0 3 8) 200)).chip.lock = false) :=
  ⟨by decide, by decide, by decide, by decide, fun _ => rfl,
    brightness_work R0 (led0 3 8) 200 (by decide) (by decide) (by decide) (by decide)
      (fun _ => rfl)⟩

/-! ## Reading back what was written -/

theorem digitChar_isdigit : ∀ k, k < 10 →
    isdigit (Nat.digitChar k) = true ∧ (Nat.digitChar k).toNat - 48 = k := by
  decide

theorem isdigit_not_isspace (c : Char) (h : isdigit c = true) : isspace c = false := by
  unfold isdigit at h
  unfold isspace
  simp only [decide_eq_true_eq, decide_eq_false_iff_not] at h ⊢
  omega

theorem strtoul_toDigitsCore (fuel : Nat) : ∀ (n : Nat) (ds : List Char), n < fuel →
    simple_strtoul 0 (Nat.toDigitsCore 10 fuel n ds) = simple_strtoul n ds := by
  induction fuel with
  | zero => intro n ds h; omega
  | succ fuel ih =>
    intro n ds h
    have hd := digitChar_isdigit (n % 10) (Nat.mod_lt n (by norm_num))
    unfold Nat.toDigitsCore
    dsimp only
    by_cases h0 : n / 10 = 0
    · rw [if_pos h0]
      have hn : n % 10 = n := by omega
      rw [simple_strtoul, if_pos hd.1, hd.2, hn, Nat.zero_mul, Nat.zero_add]
    · rw [if_neg h0, ih (n / 10) _ (by omega), simple_strtoul, if_pos hd.1, hd.2,
        Nat.div_add_mod']

theorem toDigitsCore_append (fuel : Nat) : ∀ (n : Nat) (ds rest : List Char),
    Nat.toDigitsCore 10 fuel n ds ++ rest = Nat.toDigitsCore 10 fuel n (ds ++ rest) := by
  induction fuel with
  | zero => intro n ds rest; rfl
  | succ fuel ih =>
    intro n ds rest
    unfold Nat.toDigitsCore
    dsimp only
    by_cases h0 : n / 10 = 0
    · rw [if_pos h0, if_pos h0]; rfl
    · rw [if_neg h0, if_neg h0, ih]; rfl

theorem toDigitsCore_head (fuel : Nat) : ∀ (n : Nat) (d : Char) (ds : List Char),
    isdigit d = true →
    ∃ c cs, Nat.toDigitsCore 10 fuel n (d :: ds) = c :: cs ∧ isdigit c = true := by
  induction fuel with
  | zero => intro n d ds h; exact ⟨d, ds, rfl, h⟩
  | succ fuel ih =>
    intro n d ds h
    have hd := digitChar_isdigit (n % 10) (Nat.mod_lt n (by norm_num))
    unfold Nat.toDigitsCore
    dsimp only
    by_cases h0 : n / 10 = 0
    · rw [if_pos h0]; exact ⟨_, _, rfl, hd.1⟩
    · rw [if_neg h0]; exact ih _ _ _ hd.1

/-- The text of a number starts with a decimal digit. -/
theorem utoa_head (n : Nat) : ∃ c cs, utoa n = c :: cs ∧ isdigit c = true := by
  have hd := digitChar_isdigit (n % 10) (Nat.mod_lt n (by norm_num))
  unfold utoa Nat.toDigits Nat.toDigitsCore
  dsimp only
  by_cases h0 : n / 10 = 0
  · rw [if_pos h0]; exact ⟨_, _, rfl, hd.1⟩
  · rw [if_neg h0]; exact toDigitsCore_head _ _ _ _ hd.1

/-- Reading the text of a number gives the number back. -/
theorem strtoul_utoa (n : Nat) (rest : List Char) (h : ends_number rest = true) :
    simple_strtoul 0 (utoa n ++ rest) = (n, rest) := by
  unfold utoa Nat.toDigits
  rw [toDigitsCore_append, List.nil_append, strtoul_toDigitsCore _ _ _ (Nat.lt_succ_self n)]
  cases rest with
  | nil => rfl
  | cons c cs =>
    have hc : isdigit c = false := by simpa [ends_number] using h
    rw [simple_strtoul, hc]
    rfl

theorem skip_spaces_append (ws s : List Char) (h : all_space ws = true) :
    skip_spaces (ws ++ s) = skip_spaces s := by
  induction ws with
  | nil => rfl
  | cons c cs ih =>
    have hc : isspace c = true ∧ all_space cs = true := by
      simpa [all_space] using h
    rw [List.cons_append, skip_spaces, if_pos hc.1, ih hc.2]

/-- One conversion of sscanf: white space, the text of `n`, and a rest that
does not go on with a digit. -/
theorem sscanf_u_token (k n : Nat) (ws rest : List Char) (hws : all_space ws = true)
    (hrest : ends_number rest = true) :
    sscanf_u (k + 1) (ws ++ (utoa n ++ rest)) = (n % 2 ^ 32) :: sscanf_u k rest := by
  obtain ⟨c, cs, hu, hc⟩ := utoa_head n
  have hskip : skip_spaces (ws ++ (utoa n ++ rest)) = c :: (cs ++ rest) := by
    rw [skip_spaces_append _ _ hws, hu, List.cons_append, skip_spaces,
      isdigit_not_isspace c hc]
    rfl
  rw [sscanf_u, hskip]
  dsimp only
  rw [if_pos hc, ← List.cons_append, ← hu, strtoul_utoa n rest hrest]

theorem blank_ends_number (ws s : List Char) (h : is_blank ws = true) :
    ends_number (ws ++ s) = true ∧ all_space ws = true := by
  cases ws with
  | nil => simp [is_blank] at h
  | cons c cs =>
    have hc : isspace c = true ∧ all_space cs = true := by
      simpa [is_blank, all_space] using h
    refine ⟨?_, ?_⟩
    · have : isdigit c = false := by
        cases hd : isdigit c with
        | false => rfl
        | true => rw [isdigit_not_isspace c hd] at hc; exact absurd hc.1 (by decide)
      simp [ends_number, this]
    · simpa [all_space] using hc
/-- The cached times after lm3633_led_store_pattern_times are what sscanf
stored, on every path. -/
theorem store_pattern_times_time (buf : String) (len : Nat) (lmu_led : ti_lmu_led) :
    (lm3633_led_store_pattern_times buf len lmu_led).2.time
      = { delay := (sscanf_u 5 buf.toList).getD 0 lmu_led.time.delay
          rise := (sscanf_u 5 buf.toList).getD 1 lmu_led.time.rise
          high := (sscanf_u 5 buf.toList).getD 2 lmu_led.time.high
          fall := (sscanf_u 5 buf.toList).getD 3 lmu_led.time.fall
          low := (sscanf_u 5 buf.toList).getD 4 lmu_led.time.low } := by
  unfold lm3633_led_store_pattern_times
  dsimp only
  split_ifs <;> rfl

/-- The cached levels after lm3633_led_store_pattern_levels with two tokens
are the clamped values, on every path. -/
theorem store_pattern_levels_level (R : lmu_register) (buf : String) (len : Nat)
    (lmu_led : ti_lmu_led) (h : (sscanf_u 2 buf.toList).length = 2) :
    (lm3633_led_store_pattern_levels R buf len lmu_led).2.level
      = { low := min ((sscanf_u 2 buf.toList).getD 0 0) LM3633_LED_MAX_BRIGHTNESS % 256
          high := min ((sscanf_u 2 buf.toList).getD 1 0) LM3633_LED_MAX_BRIGHTNESS % 256 } := by
  unfold lm3633_led_store_pattern_levels
  dsimp only
  rw [if_neg (by rw [h]; exact fun c => c rfl)]
  split_ifs <;> rfl

theorem sscanf_u_five (d r h f l : Nat) (w0 w1 w2 w3 w4 tail : List Char)
    (hw0 : all_space w0 = true) (hw1 : is_blank w1 = true) (hw2 : is_blank w2 = true)
    (hw3 : is_blank w3 = true) (hw4 : is_blank w4 = true) (ht : ends_number tail = true) :
    sscanf_u 5 (w0 ++ (utoa d ++ (w1 ++ (utoa r ++ (w2 ++ (utoa h ++ (w3 ++ (utoa f
      ++ (w4 ++ (utoa l ++ tail))))))))))
      = [d % 2 ^ 32, r % 2 ^ 32, h % 2 ^ 32, f % 2 ^ 32, l % 2 ^ 32] := by
  rw [sscanf_u_token 4 d w0 _ hw0 (blank_ends_number w1 _ hw1).1,
    sscanf_u_token 3 r w1 _ (blank_ends_number w1 [] hw1).2 (blank_ends_number w2 _ hw2).1,
    sscanf_u_token 2 h w2 _ (blank_ends_number w2 [] hw2).2 (blank_ends_number w3 _ hw3).1,
    sscanf_u_token 1 f w3 _ (blank_ends_number w3 [] hw3).2 (blank_ends_number w4 _ hw4).1,
    sscanf_u_token 0 l w4 _ (blank_ends_number w4 [] hw4).2 ht]
  rfl

theorem sscanf_u_two (low high : Nat) (w0 w1 tail : List Char)
    (hw0 : all_space w0 = true) (hw1 : is_blank w1 = true) (ht : ends_number tail = true) :
    sscanf_u 2 (w0 ++ (utoa low ++ (w1 ++ (utoa high ++ tail))))
      = [low % 2 ^ 32, high % 2 ^ 32] := by
  rw [sscanf_u_token 1 low w0 _ hw0 (blank_ends_number w1 _ hw1).1,
    sscanf_u_token 0 high w1 _ (blank_ends_number w1 [] hw1).2 ht]
  rfl

/-- C7: for five unsigned integers d, r, h, f, l written to pattern-times as
five tokens separated by white space (white space may come first, and the end
of the input or a character that is not a digit comes last), a following read
of pattern-times returns exactly the text
"delay: d, rise: r, high:h, fall:f, low: l" followed by a newline, in which
each value is the written one modulo 2 ^ 32 (the fields are unsigned int), so
the written value itself when it is below 2 ^ 32; this holds whatever the
effect subsystem answers to the write. -/
theorem pattern_times_write_read (len : Nat) (lmu_led : ti_lmu_led) (d r h f l : Nat)
    (w0 w1 w2 w3 w4 tail : List Char)
    (hw0 : all_space w0 = true) (hw1 : is_blank w1 = true) (hw2 : is_blank w2 = true)
    (hw3 : is_blank w3 = true) (hw4 : is_blank w4 = true) (ht : ends_number tail = true) :
    lm3633_led_show_pattern_times
        (lm3633_led_store_pattern_times
          (String.mk (w0 ++ (utoa d ++ (w1 ++ (utoa r ++ (w2 ++ (utoa h ++ (w3 ++ (utoa f
            ++ (w4 ++ (utoa l ++ tail)))))))))))
          len lmu_led).2
      = String.mk ("delay: ".toList ++ utoa (d % 2 ^ 32) ++ ", rise: ".toList
          ++ utoa (r % 2 ^ 32) ++ ", high:".toList ++ utoa (h % 2 ^ 32) ++ ", fall:".toList
          ++ utoa (f % 2 ^ 32) ++ ", low: ".toList ++ utoa (l % 2 ^ 32) ++ "\n".toList)
    ∧ (d < 2 ^ 32 → r < 2 ^ 32 → h < 2 ^ 32 → f < 2 ^ 32 → l < 2 ^ 32 →
        lm3633_led_show_pattern_times
            (lm3633_led_store_pattern_times
              (String.mk (w0 ++ (utoa d ++ (w1 ++ (utoa r ++ (w2 ++ (utoa h ++ (w3 ++ (utoa f
                ++ (w4 ++ (utoa l ++ tail)))))))))))
              len lmu_led).2
          = String.mk ("delay: ".toList ++ utoa d ++ ", rise: ".toList ++ utoa r
              ++ ", high:".toList ++ utoa h ++ ", fall:".toList ++ utoa f
              ++ ", low: ".toList ++ utoa l ++ "\n".toList)) := by
  have hs : (String.mk (w0 ++ (utoa d ++ (w1 ++ (utoa r ++ (w2 ++ (utoa h ++ (w3 ++ (utoa f
      ++ (w4 ++ (utoa l ++ tail))))))))))).toList
      = w0 ++ (utoa d ++ (w1 ++ (utoa r ++ (w2 ++ (utoa h ++ (w3 ++ (utoa f
      ++ (w4 ++ (utoa l ++ tail))))))))) := rfl
  have key : lm3633_led_show_pattern_times
        (lm3633_led_store_pattern_times
          (String.mk (w0 ++ (utoa d ++ (w1 ++ (utoa r ++ (w2 ++ (utoa h ++ (w3 ++ (utoa f
            ++ (w4 ++ (utoa l ++ tail)))))))))))
          len lmu_led).2
      = String.mk ("delay: ".toList ++ utoa (d % 2 ^ 32) ++ ", rise: ".toList
          ++ utoa (r % 2 ^ 32) ++ ", high:".toList ++ utoa (h % 2 ^ 32) ++ ", fall:".toList
          ++ utoa (f % 2 ^ 32) ++ ", low: ".toList ++ utoa (l % 2 ^ 32) ++ "\n".toList) := by
    unfold lm3633_led_show_pattern_times
    rw [store_pattern_times_time, hs,
      sscanf_u_five d r h f l w0 w1 w2 w3 w4 tail hw0 hw1 hw2 hw3 hw4 ht]
    rfl
  refine ⟨key, ?_⟩
  intro hd hr hh hf hl
  rw [key, Nat.mod_eq_of_lt hd, Nat.mod_eq_of_lt hr, Nat.mod_eq_of_lt hh, Nat.mod_eq_of_lt hf,
    Nat.mod_eq_of_lt hl]

/-- Witness of C7: writing "5 10 20 30 40" and reading back. -/
theorem pattern_times_write_read_witness :
    lm3633_led_show_pattern_times
        (lm3633_led_store_pattern_times "5 10 20 30 40" 13 (led0 0 1)).2
      = "delay: 5, rise: 10, high:20, fall:30, low: 40\n" :=
  (pattern_times_write_read 13 (led0 0 1) 5 10 20 30 40 [] [' '] [' '] [' '] [' '] []
    (by decide) (by decide) (by decide) (by decide) (by decide) (by decide)).2
    (by decide) (by decide) (by decide) (by decide) (by decide)

/-- C7 as stated fails twice.  After writing "5 10 20 30 40" the read does
not return exactly "delay: 5, rise: 10, high:20, fall:30, low: 40": the text
ends with a newline.  And the write of "4294967296 10 20 30 40" is accepted
(the input length is returned) and reads back a delay of 0, not of
4294967296. -/
theorem pattern_times_read_counterexample :
    lm3633_led_show_pattern_times
        (lm3633_led_store_pattern_times "5 10 20 30 40" 13 (led0 0 1)).2
      ≠ "delay: 5, rise: 10, high:20, fall:30, low: 40"
    ∧ (lm3633_led_store_pattern_times "4294967296 10 20 30 40" 22 (led0 0 1)).1 = 22
    ∧ lm3633_led_show_pattern_times
        (lm3633_led_store_pattern_times "4294967296 10 20 30 40" 22 (led0 0 1)).2
      = "delay: 0, rise: 10, high:20, fall:30, low: 40\n" := by
  refine ⟨by decide, by decide, by decide⟩

/-- C6: for a pair of unsigned integers low, high written to pattern-levels
as two tokens separated by white space, the stored level.low is
min(low mod 2 ^ 32, 255) and the stored level.high is min(high mod 2 ^ 32,
255) (the scan stores into unsigned int), so min(low, 255) and min(high, 255)
for values below 2 ^ 32, whatever the transport and the effect subsystem
answer; and a following read of pattern-levels returns
"low brightness: <level.low>, high brightness: <level.high>" followed by a
newline. -/
theorem pattern_levels_write_read (R : lmu_register) (len : Nat) (lmu_led : ti_lmu_led)
    (low high : Nat) (w0 w1 tail : List Char)
    (hw0 : all_space w0 = true) (hw1 : is_blank w1 = true) (ht : ends_number tail = true) :
    (lm3633_led_store_pattern_levels R
        (String.mk (w0 ++ (utoa low ++ (w1 ++ (utoa high ++ tail))))) len lmu_led).2.level.low
      = min (low % 2 ^ 32) 255
    ∧ (lm3633_led_store_pattern_levels R
        (String.mk (w0 ++ (utoa low ++ (w1 ++ (utoa high ++ tail))))) len lmu_led).2.level.high
      = min (high % 2 ^ 32) 255
    ∧ lm3633_led_show_pattern_levels
        (lm3633_led_store_pattern_levels R
          (String.mk (w0 ++ (utoa low ++ (w1 ++ (utoa high ++ tail))))) len lmu_led).2
      = String.mk ("low brightness: ".toList
          ++ utoa (lm3633_led_store_pattern_levels R
              (String.mk (w0 ++ (utoa low ++ (w1 ++ (utoa high ++ tail)))))
              len lmu_led).2.level.low
          ++ ", high brightness: ".toList
          ++ utoa (lm3633_led_store_pattern_levels R
              (String.mk (w0 ++ (utoa low ++ (w1 ++ (utoa high ++ tail)))))
              len lmu_led).2.level.high
          ++ "\n".toList)
    ∧ (low < 2 ^ 32 → high < 2 ^ 32 →
        (lm3633_led_store_pattern_levels R
            (String.mk (w0 ++ (utoa low ++ (w1 ++ (utoa high ++ tail)))))
            len lmu_led).2.level.low = min low 255
        ∧ (lm3633_led_store_pattern_levels R
            (String.mk (w0 ++ (utoa low ++ (w1 ++ (utoa high ++ tail)))))
            len lmu_led).2.level.high = min high 255
        ∧ lm3633_led_show_pattern_levels
            (lm3633_led_store_pattern_levels R
              (String.mk (w0 ++ (utoa low ++ (w1 ++ (utoa high ++ tail))))) len lmu_led).2
          = String.mk ("low brightness: ".toList ++ utoa (min low 255)
              ++ ", high brightness: ".toList ++ utoa (min high 255) ++ "\n".toList)) := by
  have hs : (String.mk (w0 ++ (utoa low ++ (w1 ++ (utoa high ++ tail))))).toList
      = w0 ++ (utoa low ++ (w1 ++ (utoa high ++ tail))) := rfl
  have hscan := sscanf_u_two low high w0 w1 tail hw0 hw1 ht
  have hlev := store_pattern_levels_level R
    (String.mk (w0 ++ (utoa low ++ (w1 ++ (utoa high ++ tail))))) len lmu_led
    (by rw [hs, hscan]; rfl)
  rw [hs, hscan] at hlev
  have h1 : min (low % 2 ^ 32) 255 % 256 = min (low % 2 ^ 32) 255 :=
    Nat.mod_eq_of_lt (by omega)
  have h2 : min (high % 2 ^ 32) 255 % 256 = min (high % 2 ^ 32) 255 :=
    Nat.mod_eq_of_lt (by omega)
  simp only [List.getD_cons_zero, List.getD_cons_succ, LM3633_LED_MAX_BRIGHTNESS, h1, h2]
    at hlev
  have hshow : lm3633_led_show_pattern_levels
        (lm3633_led_store_pattern_levels R
          (String.mk (w0 ++ (utoa low ++ (w1 ++ (utoa high ++ tail))))) len lmu_led).2
      = String.mk ("low brightness: ".toList ++ utoa (min (low % 2 ^ 32) 255)
          ++ ", high brightness: ".toList ++ utoa (min (high % 2 ^ 32) 255)
          ++ "\n".toList) := by
    unfold lm3633_led_show_pattern_levels
    rw [hlev]
  refine ⟨by rw [hlev], by rw [hlev], ?_, ?_⟩
  · rw [hshow, hlev]
  · intro hlow hhigh
    rw [hshow, hlev, Nat.mod_eq_of_lt hlow, Nat.mod_eq_of_lt hhigh]
    exact ⟨rfl, rfl, rfl⟩

/-- Witness of C6: writing "300 10" stores low = 255 and high = 10, and the
read returns the two levels and a newline. -/
theorem pattern_levels_write_read_witness :
    (lm3633_led_store_pattern_levels R0 "300 10" 6 (led0 0 1)).2.level.low = 255
    ∧ (lm3633_led_store_pattern_levels R0 "300 10" 6 (led0 0 1)).2.level.high = 10
    ∧ lm3633_led_show_pattern_levels
        (lm3633_led_store_pattern_levels R0 "300 10" 6 (led0 0 1)).2
      = "low brightness: 255, high brightness: 10\n" :=
  (pattern_levels_write_read R0 6 (led0 0 1) 300 10 [] [' '] []
    (by decide) (by decide) (by decide)).2.2.2 (by decide) (by decide)

/-- C6 as stated fails twice.  After writing "300 10" the read does not
return "low brightness: 255, high brightness: 10": the text ends with a
newline.  And the write of "4294967296 10" is accepted (the input length is
returned) and stores level.low = 0, not min(4294967296, 255) = 255. -/
theorem pattern_levels_read_counterexample :
    lm3633_led_show_pattern_levels
        (lm3633_led_store_pattern_levels R0 "300 10" 6 (led0 0 1)).2
      ≠ "low brightness: 255, high brightness: 10"
    ∧ (lm3633_led_store_pattern_levels R0 "4294967296 10" 13 (led0 0 1)).1 = 13
    ∧ (lm3633_led_store_pattern_levels R0 "4294967296 10" 13 (led0 0 1)).2.level.low = 0
    ∧ min 4294967296 255 = 255 := by
  refine ⟨by decide, by decide, by decide, by decide⟩

end LM3633
